import Mathlib

/-!
Verification development for the PDF financial-extraction core of
blueboyrocks/business-valuation-app.

The Python source (src/modal/extract_pdf.py and
src/lib/extraction/modal/extract_pdf.py) is shallowly embedded below:

* Python `str` values are Lean `String`s (ASCII behaviour of `lower`,
  `strip`, `isdigit`, `\w`, `\s` is modelled; all inputs exercised by the
  theorems are ASCII).
* Python `float` is modelled by `PyFloat`: an exact rational, plus the
  special values `inf`, `-inf` and `nan`.  String-to-float conversion
  overflows to `inf` at 2^1024, mirroring CPython's `float(...)` on
  decimal strings; rounding of large finite values is not modelled (no
  theorem below depends on it).
* Python `dict` is an insertion-ordered association list (`PyDict`).
* `re.search` is modelled by a small backtracking engine (`RE`,
  `reMatch`) with Python's semantics: leftmost match, ordered
  alternation, greedy/lazy quantifiers over character classes, one
  capture group, negative lookahead.  Every regex literal of the source
  is hand-translated into an `RE` value next to the function using it.
* Statements that can raise an exception which the surrounding Python
  code does not catch are embedded in `Except PyErr`; `try/except`
  blocks are translated to local `Option`/`match` handling exactly where
  the source catches.
* `datetime.now()` is an external effect; functions reading it take an
  explicit `now` (current-year) parameter.  `datetime.strptime` is a
  library call; it is modelled faithfully for the four format strings
  the source passes to it.
-/

namespace BV

/-! ## Basic character and string primitives (Python `str` methods) -/

/-- Python's `\s` class / `str.strip` whitespace (ASCII part). -/
def wsC (c : Char) : Bool :=
  c == ' ' || c == '\t' || c == '\n' || c == '\r' || c == '\x0b' || c == '\x0c'

/-- Python's `\w` class: `[A-Za-z0-9_]` (ASCII part). -/
def wordChar (c : Char) : Bool := c.isAlphanum || c == '_'

/-- Python `[^a-z]` character class test. -/
def notLowerAZ (c : Char) : Bool := !(97 ≤ c.toNat && c.toNat ≤ 122)

/-- Python `[^0-9]` character class test. -/
def notDigit (c : Char) : Bool := !c.isDigit

/-- Python `[\d,]` character class test. -/
def amtC (c : Char) : Bool := c.isDigit || c == ','

/-- Python `[-\s]` character class test. -/
def dashWs (c : Char) : Bool := c == '-' || wsC c

/-- Python `[:\s]` character class test. -/
def colonWs (c : Char) : Bool := c == ':' || wsC c

/-- Python `str.lower()` (ASCII). -/
def pyLower (s : String) : String := String.mk (s.data.map Char.toLower)

/-- Python `str.upper()` (ASCII). -/
def pyUpper (s : String) : String := String.mk (s.data.map Char.toUpper)

/-- Python `s[:n]` slicing. -/
def pyTake (s : String) (n : Nat) : String := String.mk (s.data.take n)

/-- Python `c in s` membership for a single character. -/
def charIn (c : Char) (s : String) : Bool := s.data.any (fun x => x == c)

/-- Fuel-driven body of `replAll`; each step consumes at least one input
character, so fuel equal to the input length suffices and the
fuel-exhausted branch is unreachable. -/
def replAllF (n r : List Char) : Nat → List Char → List Char
  | _, [] => []
  | 0, l => l
  | fuel + 1, c :: t =>
    if n ≠ [] && n.isPrefixOf (c :: t) then
      r ++ replAllF n r fuel (t.drop (n.length - 1))
    else c :: replAllF n r fuel t

/-- Replace every (non-overlapping, left-to-right) occurrence of `n` by
`r`, as Python `str.replace` does.  An empty needle leaves the input
unchanged (the source never replaces an empty string). -/
def replAll (n r : List Char) (l : List Char) : List Char :=
  replAllF n r l.length l

/-- Python `s.replace(n, r)`. -/
def pyReplace (s n r : String) : String := String.mk (replAll n.data r.data s.data)

/-- Python `str.strip()` on a character list. -/
def pyStripL (l : List Char) : List Char :=
  ((l.dropWhile wsC).reverse.dropWhile wsC).reverse

/-- Python `str.strip()`. -/
def pyStrip (s : String) : String := String.mk (pyStripL s.data)

/-- Python `needle in hay` substring test. -/
def subStr (needle hay : String) : Bool :=
  hay.data.tails.any (fun t => needle.data.isPrefixOf t)

/-- Python `str.isdigit()` (ASCII digits). -/
def pyIsDigit (s : String) : Bool := s != "" && s.data.all Char.isDigit

/-- Numeric value of a list of ASCII digit characters. -/
def digitsVal (l : List Char) : Nat :=
  l.foldl (fun a c => a * 10 + (c.toNat - 48)) 0

/-- Python `int(s)`: optional surrounding whitespace, optional sign, one
or more digits (digit-group underscores are not modelled; no theorem
feeds them). `none` models `ValueError`. -/
def pyIntStr (s : String) : Option Int :=
  let t := pyStripL s.data
  let (neg, t) := match t with
    | '+' :: r => (false, r)
    | '-' :: r => (true, r)
    | _ => (false, t)
  if t ≠ [] && t.all Char.isDigit then
    some (if neg then -(digitsVal t : Int) else (digitsVal t : Int))
  else none

/-! ## Python float model -/

/-- Python `float` values: exact rationals plus the IEEE specials that the
pipeline can produce from strings. -/
inductive PyFloat where
  | fin (q : ℚ)
  | inf
  | ninf
  | nan
deriving DecidableEq, Repr

/-- Kernel-computable rational product (`mkRat` normalises), equal to
`Rat.mul` by `ratMul_eq` below; the library operations are declared
irreducible, so the embedding computes with these instead. -/
def ratMul (a b : ℚ) : ℚ := mkRat (a.num * b.num) (a.den * b.den)

/-- Kernel-computable rational sum, equal to `Rat.add` by
`ratAdd_eq` below. -/
def ratAdd (a b : ℚ) : ℚ := mkRat (a.num * b.den + b.num * a.den) (a.den * b.den)

/-- Python `min(a, b)` on two floats modelled as rationals. -/
def pyMin (a b : ℚ) : ℚ := if a ≤ b then a else b

/-- Overflow threshold of `float(...)` on decimal strings: 2^1024,
written as a numeral so it reduces without deep `Nat.pow` recursion. -/
def floatMax : ℚ := mkRat 179769313486231590772930519078902473361797697894230657273430081157732675805500963132708477322407536021120113879871393357658789768814416622492847430639474124377767893424865485276302219601246094119453082952085005768838150682342462881473913110540827237163350510684586298239947245938479716304835356329624224137216 1

/-- Build a `PyFloat` from an exact rational, overflowing to ±inf like
CPython's strtod does for decimal strings beyond the double range. -/
def pfOfRat (q : ℚ) : PyFloat :=
  if q ≥ floatMax then .inf else if q ≤ -floatMax then .ninf else .fin q

/-- Split a character list at the first `e`/`E` (exponent marker). -/
def splitExpo (l : List Char) : List Char × Option (List Char) :=
  match l.findIdx? (fun c => c == 'e' || c == 'E') with
  | none => (l, none)
  | some i => (l.take i, some (l.drop (i + 1)))

/-- Parse the exponent part of a float literal: optional sign, one or more
digits. -/
def parseExpo (l : List Char) : Option Int :=
  let (neg, t) := match l with
    | '+' :: r => (false, r)
    | '-' :: r => (true, r)
    | _ => (false, l)
  if t ≠ [] && t.all Char.isDigit then
    some (if neg then -(digitsVal t : Int) else (digitsVal t : Int))
  else none

/-- Python `float(s)`: optional whitespace/sign, `inf`/`infinity`/`nan`
(case-insensitive), or decimal digits with optional fraction and
exponent (the value being mantissa × 10^exponent; exponents beyond
±400 saturate past the double range / underflow to zero, as in
CPython). `none` models `ValueError`. -/
def pyFloatStr (s : String) : Option PyFloat :=
  let t := pyStripL s.data
  let (neg, t) := match t with
    | '+' :: r => (false, r)
    | '-' :: r => (true, r)
    | _ => (false, t)
  let low := t.map Char.toLower
  if low = "inf".data || low = "infinity".data then
    some (if neg then .ninf else .inf)
  else if low = "nan".data then some .nan
  else
    let (mant, expo) := splitExpo t
    let ip := mant.takeWhile Char.isDigit
    let r1 := mant.drop ip.length
    let (fp, r2) : List Char × List Char :=
      match r1 with
      | '.' :: rr => (rr.takeWhile Char.isDigit, rr.drop (rr.takeWhile Char.isDigit).length)
      | _ => ([], r1)
    if r2 ≠ [] then none
    else if ip = [] && fp = [] then none
    else
      let m : Nat := digitsVal ip * 10 ^ fp.length + digitsVal fp
      let mI : Int := if neg then -(m : Int) else (m : Int)
      match expo with
      | none => some (pfOfRat (mkRat mI (10 ^ fp.length)))
      | some el =>
        match parseExpo el with
        | none => none
        | some e =>
          if m = 0 then some (.fin 0)
          else if e > 400 then some (if neg then .ninf else .inf)
          else if e < -400 then some (.fin 0)
          else if e ≥ 0 then
            some (pfOfRat (mkRat (mI * 10 ^ e.toNat) (10 ^ fp.length)))
          else some (pfOfRat (mkRat mI (10 ^ fp.length * 10 ^ (-e).toNat)))

/-- Python truncation toward zero, as in `int(float(...))` for finite
values: `tdiv` of the reduced numerator by the denominator truncates
toward zero. -/
def ratTrunc (q : ℚ) : Int := q.num.tdiv q.den

/-- Errors that can escape the (incompletely) guarded conversions of the
pipeline. -/
inductive PyErr where
  | overflowError
  | valueError
deriving DecidableEq, Repr

/-- Python `int(x)` on a float: truncates finite values, raises
`OverflowError` on ±inf and `ValueError` on nan. -/
def pfToInt : PyFloat → Except PyErr Int
  | .fin q => .ok (ratTrunc q)
  | .inf => .error .overflowError
  | .ninf => .error .overflowError
  | .nan => .error .valueError

/-- Python truthiness of a float (`0.0` is falsy; `inf` and `nan` are
truthy). -/
def pfTruthy : PyFloat → Bool
  | .fin q => q ≠ 0
  | _ => true

/-- Python `x > 0` on a float. -/
def pfGt0 : PyFloat → Bool
  | .fin q => 0 < q
  | .inf => true
  | .ninf => false
  | .nan => false

/-- Python unary minus on a float. -/
def pfNeg : PyFloat → PyFloat
  | .fin q => .fin (-q)
  | .inf => .ninf
  | .ninf => .inf
  | .nan => .nan

/-- Python `x == 0` on a float (`nan == 0` and `inf == 0` are false). -/
def pfIsZero : PyFloat → Bool
  | .fin q => q = 0
  | _ => false

/-- Python float addition restricted to the cases the pipeline reaches. -/
def pfAdd : PyFloat → PyFloat → PyFloat
  | .nan, _ => .nan
  | _, .nan => .nan
  | .inf, .ninf => .nan
  | .ninf, .inf => .nan
  | .inf, _ => .inf
  | _, .inf => .inf
  | .ninf, _ => .ninf
  | _, .ninf => .ninf
  | .fin a, .fin b => .fin (ratAdd a b)

/-! ## Python dict model (insertion-ordered association list) -/

/-- Python `dict` with `String` keys. -/
abbrev PyDict (α : Type) : Type := List (String × α)

/-- Python `d[k]` lookup (first — unique — occurrence). -/
def pyGet {α : Type} : PyDict α → String → Option α
  | [], _ => none
  | (k', v) :: r, k => if k' == k then some v else pyGet r k

/-- Python `d[k] = v`: replace in place if present, else append. -/
def pyUpd {α : Type} : PyDict α → String → α → PyDict α
  | [], k, v => [(k, v)]
  | (k', v') :: r, k, v =>
    if k' == k then (k', v) :: r else (k', v') :: pyUpd r k v

/-- Python `d.get(k, dflt)`. -/
def dGet (d : PyDict Int) (k : String) (dflt : Int) : Int :=
  match pyGet d k with
  | some v => v
  | none => dflt

/-! ## Regex engine: Python `re.search` semantics

Backtracking matcher over a regex AST whose quantifiers range over
character classes only (which covers every pattern appearing in the
source).  Alternation is ordered, quantifiers are greedy unless marked
lazy, the single capture group records the substring it consumed, and
`re.search` scans start offsets left to right. -/

/-- Regex AST.  `star`/`plus`-like repetition is expressed via `star`
over a character class (all quantified subexpressions in the source are
single character classes), `{m,n}` via explicit sequencing, `(?!...)`
via `nla`, `^` (no MULTILINE flag anywhere in the source) via `bos`, and
a trailing `\b` after a word character via `nwb`. -/
inductive RE where
  | eps
  | cls (p : Char → Bool)
  | seq (a b : RE)
  | alt (a b : RE)
  | opt (a : RE) (lazy : Bool)
  | star (p : Char → Bool) (lazy : Bool)
  | grp (a : RE)
  | nla (a : RE)
  | bos
  | nwb

/-- Length of the maximal prefix satisfying a class. -/
def runLen (p : Char → Bool) : List Char → Nat
  | [] => 0
  | c :: r => if p c then runLen p r + 1 else 0

/-- Backtracking matcher in continuation style.  `L` is the length of the
whole subject (so `bos` can recognise the true start), `cap` the capture
recorded so far, and `k` the continuation receiving the rest of the
subject and the capture. -/
def reMatch (L : Nat) :
    RE → List Char → Option (List Char) →
    (List Char → Option (List Char) → Option (Option (List Char))) →
    Option (Option (List Char))
  | .eps, s, cap, k => k s cap
  | .cls _, [], _, _ => none
  | .cls p, c :: s, cap, k => if p c then k s cap else none
  | .seq a b, s, cap, k => reMatch L a s cap (fun s2 c2 => reMatch L b s2 c2 k)
  | .alt a b, s, cap, k =>
    (reMatch L a s cap k).orElse (fun _ => reMatch L b s cap k)
  | .opt a lz, s, cap, k =>
    if lz then (k s cap).orElse (fun _ => reMatch L a s cap k)
    else (reMatch L a s cap k).orElse (fun _ => k s cap)
  | .star p lz, s, cap, k =>
    let n := runLen p s
    let idxs := if lz then List.range (n + 1) else (List.range (n + 1)).reverse
    idxs.findSome? (fun i => k (s.drop i) cap)
  | .grp a, s, cap, k =>
    reMatch L a s cap (fun s2 _ => k s2 (some (s.take (s.length - s2.length))))
  | .nla a, s, cap, k =>
    match reMatch L a s cap (fun _ c => some c) with
    | some _ => none
    | none => k s cap
  | .bos, s, cap, k => if s.length == L then k s cap else none
  | .nwb, s, cap, k =>
    match s with
    | [] => k s cap
    | c :: _ => if wordChar c then none else k s cap

/-- `re.search`: try each start offset left to right; on the first
success return the capture (if the pattern has a group). -/
def reSearchAux (r : RE) (s : List Char) : Option (Option (List Char)) :=
  (List.range (s.length + 1)).findSome?
    (fun i => reMatch s.length r (s.drop i) none (fun _ cap => some cap))

/-- Boolean `re.search` (used where the source only tests the match). -/
def reSearchB (r : RE) (s : String) : Bool := (reSearchAux r s.data).isSome

/-- `re.search(...)` followed by `match.group(1)`.  Every pattern the
source applies this to contains exactly one group that participates in
any successful match. -/
def reSearch1 (r : RE) (s : String) : Option String :=
  match reSearchAux r s.data with
  | some (some g) => some (String.mk g)
  | _ => none

/-- `re.search(...)` followed by `match.group()` (whole match), for the
single group-less pattern the source uses this way (`20\d` twice). -/
def reSearch0 (r : RE) (s : String) : Option String :=
  (List.range (s.data.length + 1)).findSome? (fun i =>
    let t := s.data.drop i
    match reMatch s.data.length r t none
        (fun rest _ => some (some (t.take (t.length - rest.length)))) with
    | some (some m) => some (String.mk m)
    | _ => none)

/-- Python `re.search(rf"\b{w}\b", s)` for a literal word `w` whose
characters are all word characters: some occurrence of `w` is flanked by
non-word characters (or the string ends). -/
def searchWordB (w : String) (s : String) : Bool :=
  go w.data s.data false
where
  /-- Scan positions left to right; `prevWord` records whether the
  previous character is a word character. -/
  go (w l : List Char) (prevWord : Bool) : Bool :=
    (w.isPrefixOf l && !prevWord &&
      (match l.drop w.length with
       | [] => true
       | c :: _ => !wordChar c)) ||
    (match l with
     | [] => false
     | c :: r => go w r (wordChar c))

/-! ## Regex combinators used by the pattern translations -/

/-- Single literal character. -/
def chrR (c : Char) : RE := RE.cls (fun x => x == c)

/-- Literal string. -/
def lit (s : String) : RE :=
  s.data.foldr (fun c r => RE.seq (chrR c) r) RE.eps

/-- Literal string under `re.IGNORECASE` (ASCII). -/
def litCI (s : String) : RE :=
  s.data.foldr (fun c r => RE.seq (RE.cls (fun x => x.toLower == c.toLower)) r) RE.eps

/-- Sequence a list of regexes. -/
def cats (l : List RE) : RE := l.foldr RE.seq RE.eps

/-- Ordered alternation of a non-empty list. -/
def alts : List RE → RE
  | [] => RE.eps
  | [r] => r
  | r :: rest => RE.alt r (alts rest)

/-- Greedy `p*`. -/
def starC (p : Char → Bool) : RE := RE.star p false

/-- Greedy `p+`. -/
def plusC (p : Char → Bool) : RE := RE.seq (RE.cls p) (starC p)

/-- Greedy `r?`. -/
def optR (r : RE) : RE := RE.opt r false

/-- Greedy `c?` for a single character. -/
def optC (c : Char) : RE := optR (chrR c)

/-- `p` repeated exactly `n` times. -/
def rep (p : Char → Bool) (n : Nat) : RE := cats (List.replicate n (RE.cls p))

/-- `\s*`. -/
def wsStar : RE := starC wsC

/-- `\s+`. -/
def wsPlus : RE := plusC wsC

/-- `.` (any character except newline). -/
def dotAny (c : Char) : Bool := c != '\n'

/-- Greedy `.*`. -/
def dotStar : RE := RE.star dotAny false

/-- Lazy `.*?`. -/
def dotStarL : RE := RE.star dotAny true

/-- The ubiquitous amount tail `[\$]?\s*([\d,]+)` of the text-strategy
patterns. -/
def amtTail : RE := cats [optC '$', wsStar, RE.grp (plusC amtC)]

/-! ## DocumentClassifier (src/modal/extract_pdf.py, lines 31-287) -/

/-- `ClassificationResult` dataclass. -/
structure ClassificationResult where
  document_type : String
  entity_type : Option String
  tax_year : Option Int
  jurisdiction : String
  confidence_score : ℚ
  classification_reasons : List String
deriving DecidableEq, Repr

/-- A document-type signature from `DOCUMENT_SIGNATURES`, together with
its `filename_hints` entry from `_calculate_score`.  Each pattern keeps
its Python source string (the classifier embeds its first 30 characters
into the reasons list). -/
structure Sig where
  name : String
  patterns : List (String × RE)
  requiredFields : List String
  structuralSignals : List String
  entityType : Option String
  jurisdiction : String
  weight : ℚ
  hints : List String

/-- The static `DOCUMENT_SIGNATURES` registry (and `filename_hints`),
with each regex hand-translated. -/
def SIGS : List Sig :=
  [{ name := "form_1120s"
     patterns :=
       [("form\\s*1120[-\\s]?s",
         cats [lit "form", wsStar, lit "1120", optR (RE.cls dashWs), chrR 's']),
        ("u\\.?s\\.?\\s*income\\s*tax\\s*return.*s\\s*corporation",
         cats [chrR 'u', optC '.', chrR 's', optC '.', wsStar, lit "income", wsStar,
               lit "tax", wsStar, lit "return", dotStar, chrR 's', wsStar, lit "corporation"]),
        ("1120s", lit "1120s"),
        ("income\\s*tax\\s*return.*small\\s*business\\s*corporation",
         cats [lit "income", wsStar, lit "tax", wsStar, lit "return", dotStar,
               lit "small", wsStar, lit "business", wsStar, lit "corporation"])]
     requiredFields := ["compensation of officers", "ordinary business income"]
     structuralSignals := []
     entityType := some "S-Corporation"
     jurisdiction := "Federal"
     weight := 1
     hints := ["1120s", "1120-s"] },
   { name := "form_1120"
     patterns :=
       [("form\\s*1120(?![-\\s]?s)",
         cats [lit "form", wsStar, lit "1120", RE.nla (cats [optR (RE.cls dashWs), chrR 's'])]),
        ("u\\.?s\\.?\\s*corporation\\s*income\\s*tax\\s*return",
         cats [chrR 'u', optC '.', chrR 's', optC '.', wsStar, lit "corporation", wsStar,
               lit "income", wsStar, lit "tax", wsStar, lit "return"])]
     requiredFields := ["taxable income", "total tax"]
     structuralSignals := []
     entityType := some "C-Corporation"
     jurisdiction := "Federal"
     weight := 1
     hints := ["1120"] },
   { name := "form_1065"
     patterns :=
       [("form\\s*1065", cats [lit "form", wsStar, lit "1065"]),
        ("u\\.?s\\.?\\s*return\\s*of\\s*partnership\\s*income",
         cats [chrR 'u', optC '.', chrR 's', optC '.', wsStar, lit "return", wsStar,
               lit "of", wsStar, lit "partnership", wsStar, lit "income"])]
     requiredFields := ["guaranteed payments", "ordinary business income"]
     structuralSignals := []
     entityType := some "Partnership"
     jurisdiction := "Federal"
     weight := 1
     hints := ["1065"] },
   { name := "schedule_c"
     patterns :=
       [("schedule\\s*c", cats [lit "schedule", wsStar, chrR 'c']),
        ("profit\\s*or\\s*loss\\s*from\\s*business",
         cats [lit "profit", wsStar, lit "or", wsStar, lit "loss", wsStar, lit "from",
               wsStar, lit "business"])]
     requiredFields := ["net profit", "gross receipts"]
     structuralSignals := []
     entityType := some "Sole Proprietorship"
     jurisdiction := "Federal"
     weight := 1
     hints := ["schedule-c", "schedulec", "sched_c"] },
   { name := "va_form_500"
     patterns :=
       [("virginia.*form\\s*500", cats [lit "virginia", dotStar, lit "form", wsStar, lit "500"]),
        ("virginia\\s*corporation\\s*income\\s*tax",
         cats [lit "virginia", wsStar, lit "corporation", wsStar, lit "income", wsStar, lit "tax"]),
        ("department\\s*of\\s*taxation.*virginia",
         cats [lit "department", wsStar, lit "of", wsStar, lit "taxation", dotStar, lit "virginia"]),
        ("va\\s*form\\s*500", cats [lit "va", wsStar, lit "form", wsStar, lit "500"]),
        ("schedule\\s*500adj", cats [lit "schedule", wsStar, lit "500adj"]),
        ("schedule\\s*500fed", cats [lit "schedule", wsStar, lit "500fed"]),
        ("schedule\\s*500a\\b", cats [lit "schedule", wsStar, lit "500a", RE.nwb]),
        ("schedule\\s*500ab", cats [lit "schedule", wsStar, lit "500ab"])]
     requiredFields := ["federal taxable income", "virginia taxable income"]
     structuralSignals := []
     entityType := some "Corporation"
     jurisdiction := "VA"
     weight := mkRat 9 10
     hints := ["va_form", "form_500", "virginia"] },
   { name := "balance_sheet"
     patterns :=
       [("balance\\s*sheet", cats [lit "balance", wsStar, lit "sheet"]),
        ("statement\\s*of\\s*financial\\s*position",
         cats [lit "statement", wsStar, lit "of", wsStar, lit "financial", wsStar, lit "position"])]
     requiredFields := []
     structuralSignals := ["assets", "liabilities", "equity"]
     entityType := none
     jurisdiction := "N/A"
     weight := mkRat 8 10
     hints := ["balance", "balancesheet"] },
   { name := "income_statement"
     patterns :=
       [("profit\\s*(?:and|&)\\s*loss",
         cats [lit "profit", wsStar, RE.alt (lit "and") (chrR '&'), wsStar, lit "loss"]),
        ("income\\s*statement", cats [lit "income", wsStar, lit "statement"]),
        ("statement\\s*of\\s*(?:operations|income)",
         cats [lit "statement", wsStar, lit "of", wsStar,
               RE.alt (lit "operations") (lit "income")])]
     requiredFields := ["revenue", "net income"]
     structuralSignals := []
     entityType := none
     jurisdiction := "N/A"
     weight := mkRat 7 10
     hints := ["p&l", "profit_loss", "income_stmt"] }]

/-- `DocumentClassifier._calculate_score`: the four weighted channels
(pattern ratio 0.4, filename hint 0.2, required-field ratio 0.2,
structural signals 0.3/0.1), summed and multiplied by the signature
weight, together with the reasons accumulated in source order. -/
def calcScore (sig : Sig) (lowerText filename : String) : ℚ × List String :=
  let pm := sig.patterns.filter (fun pr => reSearchB pr.2 lowerText)
  let patReasons := pm.map (fun pr => "Matched pattern: " ++ pyTake pr.1 30 ++ "...")
  let s1 : ℚ :=
    if sig.patterns.length == 0 then 0
    else ratMul (mkRat 4 10) (mkRat pm.length sig.patterns.length)
  let hintFound := sig.hints.find? (fun h => subStr h filename)
  let s2 : ℚ := match hintFound with | some _ => mkRat 2 10 | none => 0
  let hintReasons :=
    match hintFound with
    | some h => ["Filename contains: " ++ h]
    | none => []
  let rf := sig.requiredFields.filter (fun f => subStr (pyLower f) lowerText)
  let s3 : ℚ :=
    if sig.requiredFields.length == 0 then 0
    else ratMul (mkRat 2 10) (mkRat rf.length sig.requiredFields.length)
  let rfReasons := rf.map (fun f => "Found required field: " ++ f)
  let ss := sig.structuralSignals.filter (fun sg => searchWordB sg lowerText)
  let s4 : ℚ :=
    if sig.structuralSignals.length == 0 then 0
    else if ss.length ≥ 2 then mkRat 3 10
    else if ss.length == 1 then mkRat 1 10
    else 0
  let ssReasons := ss.map (fun sg => "Found structural signal: " ++ pyUpper sg)
  (ratMul (ratAdd (ratAdd (ratAdd s1 s2) s3) s4) sig.weight,
   patReasons ++ hintReasons ++ rfReasons ++ ssReasons)

/-- `max(scores.keys(), key=...)`: the first entry attaining the maximal
score in registry order. -/
def pickBest (x : Sig × ℚ × List String) :
    List (Sig × ℚ × List String) → Sig × ℚ × List String
  | [] => x
  | y :: r => pickBest (if y.2.1 > x.2.1 then y else x) r

/-- The five `_extract_year` / `extract_tax_year` patterns (identical
lists in the source). -/
def yearREs : List RE :=
  [ -- tax\s*year\s*(?:beginning|ending)?\s*(\d{4})
   cats [lit "tax", wsStar, lit "year", wsStar,
         optR (RE.alt (lit "beginning") (lit "ending")), wsStar,
         RE.grp (rep Char.isDigit 4)],
   -- for\s*(?:calendar\s*)?year\s*(\d{4})
   cats [lit "for", wsStar, optR (cats [lit "calendar", wsStar]), lit "year", wsStar,
         RE.grp (rep Char.isDigit 4)],
   -- (\d{4})\s*(?:form|return)
   cats [RE.grp (rep Char.isDigit 4), wsStar, RE.alt (lit "form") (lit "return")],
   -- december\s*31,?\s*(\d{4})
   cats [lit "december", wsStar, lit "31", optC ',', wsStar, RE.grp (rep Char.isDigit 4)],
   -- (\d{4})\s*u\.?s\.?\s*(?:income\s*)?tax
   cats [RE.grp (rep Char.isDigit 4), wsStar, chrR 'u', optC '.', chrR 's', optC '.',
         wsStar, optR (cats [lit "income", wsStar]), lit "tax"]]

/-- `\w+\s+\d` followed by an optional digit, `,?\s*` and four digits:
the `(\w+\s+\d{1,2},?\s*\d{4})` capture body of the balance-date
patterns. -/
def dateWordPat : RE :=
  cats [plusC wordChar, wsPlus, RE.cls Char.isDigit, optR (RE.cls Char.isDigit),
        optC ',', wsStar, rep Char.isDigit 4]

/-- `(\d{1,2}/\d{1,2}/\d{4})` capture body. -/
def dateSlashPat : RE :=
  cats [RE.cls Char.isDigit, optR (RE.cls Char.isDigit), chrR '/',
        RE.cls Char.isDigit, optR (RE.cls Char.isDigit), chrR '/', rep Char.isDigit 4]

/-- `(\d{4}-\d{2}-\d{2})` capture body. -/
def dateIsoPat : RE :=
  cats [rep Char.isDigit 4, chrR '-', rep Char.isDigit 2, chrR '-', rep Char.isDigit 2]

/-- The five `BALANCE_DATE_PATTERNS` (identical in `DocumentClassifier`
and `BalanceSheetExtractor._extract_balance_date`). -/
def balanceDateREs : List RE :=
  [cats [lit "as", wsStar, lit "of", wsStar, RE.grp dateWordPat],
   cats [lit "as", wsStar, lit "of", wsStar, RE.grp dateSlashPat],
   cats [lit "as", wsStar, lit "of", wsStar, RE.grp dateIsoPat],
   cats [lit "date:", wsStar, RE.grp dateWordPat],
   cats [lit "through", wsStar, RE.grp dateWordPat]]

/-- A bare `(\d{4})` (the inner search of
`_extract_balance_date_year`). -/
def digit4RE : RE := RE.grp (rep Char.isDigit 4)

/-- `DocumentClassifier._extract_year`, iterating the pattern list: on a
match, `int(match.group(1))` (uncaught, hence `Except`), returned only
if it lies in `[2015, 2030]`, otherwise the next pattern is tried. -/
def extractYearGo (lt : String) : List RE → Except PyErr (Option Int)
  | [] => .ok none
  | p :: rest =>
    match reSearch1 p lt with
    | none => extractYearGo lt rest
    | some g =>
      match pyIntStr g with
      | none => .error .valueError
      | some y => if 2015 ≤ y && y ≤ 2030 then .ok (some y) else extractYearGo lt rest

/-- `DocumentClassifier._extract_year` on the lower-cased text. -/
def extractYear (lt : String) : Except PyErr (Option Int) := extractYearGo lt yearREs

/-- `DocumentClassifier._extract_balance_date_year`: each balance-date
pattern's capture is searched for a 4-digit run; in-range years are
returned, anything else falls through, ending in `_extract_year`. -/
def balanceDateYearGo (lt : String) : List RE → Except PyErr (Option Int)
  | [] => extractYear lt
  | p :: rest =>
    match reSearch1 p lt with
    | none => balanceDateYearGo lt rest
    | some g =>
      match reSearch1 digit4RE g with
      | none => balanceDateYearGo lt rest
      | some ys =>
        match pyIntStr ys with
        | none => .error .valueError
        | some y => if 2015 ≤ y && y ≤ 2030 then .ok (some y) else balanceDateYearGo lt rest

/-- `DocumentClassifier._extract_balance_date_year`. -/
def balanceDateYear (lt : String) : Except PyErr (Option Int) :=
  balanceDateYearGo lt balanceDateREs

/-- A parsed table as consumed by the extraction layer: only its
`"rows"` entry (list of rows of string cells) is ever read
(`table.get("rows", [])`); the other keys of the table dict never
influence the functions modelled here. -/
structure PTable where
  rows : List (List String)
deriving DecidableEq, Repr

/-- `DocumentClassifier.classify`.  The constructor lower-cases the text
and filename; `self.tables` is stored but never read by `classify`, so
the parameter is unused here exactly as in the source.  The `.error`
branch for an empty registry models `max()` on an empty dict; `SIGS` is
statically non-empty, so it is unreachable. -/
def classify (text filename : String) (_tables : List PTable) :
    Except PyErr ClassificationResult :=
  let lt := pyLower text
  let fn := pyLower filename
  let scored := SIGS.map (fun sig => (sig, calcScore sig lt fn))
  match scored with
  | [] => .error .valueError
  | x :: rest =>
    let best := pickBest x rest
    if best.2.1 < mkRat 3 10 then
      match extractYear lt with
      | .error e => .error e
      | .ok y =>
        .ok ⟨"other", some "Other", y, "Unknown", best.2.1,
             ["No strong document type match found"]⟩
    else
      let yr := if best.1.name == "balance_sheet" then balanceDateYear lt else extractYear lt
      match yr with
      | .error e => .error e
      | .ok y =>
        .ok ⟨best.1.name, best.1.entityType, y, best.1.jurisdiction,
             pyMin best.2.1 1, best.2.2⟩

/-! ## Module-level two-strategy field extraction
(src/modal/extract_pdf.py, lines 1322-1630) -/

/-- `extract_tax_year`: the body of the pattern loop, returning
`now - 1` (the previous calendar year) when no pattern yields an
in-range year. -/
def extractTaxYearGo (lt : String) (now : Int) : List RE → Except PyErr Int
  | [] => .ok (now - 1)
  | p :: rest =>
    match reSearch1 p lt with
    | none => extractTaxYearGo lt now rest
    | some g =>
      match pyIntStr g with
      | none => .error .valueError
      | some y => if 2015 ≤ y && y ≤ 2030 then .ok y else extractTaxYearGo lt now rest

/-- `extract_tax_year(text)`.  `now` stands for `datetime.now().year`. -/
def extract_tax_year (text : String) (now : Int) : Except PyErr Int :=
  extractTaxYearGo (pyLower text) now yearREs

/-- The per-field pattern table of `extract_amounts_from_text`, in
source (dict-insertion) order, each regex hand-translated. -/
def textFieldPatterns : List (String × List RE) :=
  [("gross_receipts",
    [ -- gross\s*receipts.*?[\$]?\s*([\d,]+)
     cats [lit "gross", wsStar, lit "receipts", dotStarL, amtTail],
     -- total\s*(?:sales|revenue).*?[\$]?\s*([\d,]+)
     cats [lit "total", wsStar, RE.alt (lit "sales") (lit "revenue"), dotStarL, amtTail],
     -- line\s*1[a-c]?[^0-9]*[\$]?\s*([\d,]+)
     cats [lit "line", wsStar, chrR '1',
           optR (RE.cls (fun c => c == 'a' || c == 'b' || c == 'c')),
           starC notDigit, amtTail]]),
   ("cogs",
    [cats [lit "cost", wsStar, lit "of", wsStar, lit "goods", wsStar, lit "sold",
           dotStarL, amtTail],
     cats [lit "line", wsStar, chrR '2', starC notDigit, amtTail]]),
   ("gross_profit",
    [cats [lit "gross", wsStar, lit "profit", dotStarL, amtTail],
     cats [lit "line", wsStar, chrR '3', starC notDigit, amtTail]]),
   ("officer_compensation",
    [cats [lit "compensation", wsStar, lit "of", wsStar, lit "officers", dotStarL, amtTail],
     cats [lit "officer", dotStarL, lit "compensation", dotStarL, amtTail],
     cats [lit "line", wsStar, chrR '7', starC notDigit, amtTail]]),
   ("salaries_wages",
    [ -- salaries\s*(?:and\s*)?wages.*?[\$]?\s*([\d,]+)
     cats [lit "salaries", wsStar, optR (cats [lit "and", wsStar]), lit "wages",
           dotStarL, amtTail],
     cats [lit "line", wsStar, chrR '8', starC notDigit, amtTail]]),
   ("rents",
    [ -- rents?[^a-z]*[\$]?\s*([\d,]+)
     cats [lit "rent", optC 's', starC notLowerAZ, amtTail]]),
   ("interest_expense",
    [ -- interest\s*(?:expense)?[^a-z]*[\$]?\s*([\d,]+)
     cats [lit "interest", wsStar, optR (lit "expense"), starC notLowerAZ, amtTail]]),
   ("depreciation",
    [cats [lit "depreciation", starC notLowerAZ, amtTail],
     cats [lit "line", wsStar, lit "14", starC notDigit, amtTail]]),
   ("total_deductions",
    [cats [lit "total", wsStar, lit "deductions", dotStarL, amtTail],
     cats [lit "line", wsStar, lit "20", starC notDigit, amtTail]]),
   ("net_income",
    [ -- (?:ordinary|net|taxable)\s*(?:business\s*)?income.*?[\$]?\s*([\d,]+)
     cats [alts [lit "ordinary", lit "net", lit "taxable"], wsStar,
           optR (cats [lit "business", wsStar]), lit "income", dotStarL, amtTail],
     cats [lit "line", wsStar, alts [lit "21", lit "22", lit "30", lit "31"],
           starC notDigit, amtTail]]),
   ("total_assets",
    [cats [lit "total", wsStar, lit "assets", dotStarL, amtTail]]),
   ("total_liabilities",
    [cats [lit "total", wsStar, lit "liabilities", dotStarL, amtTail]]),
   ("cash",
    [ -- (?:^|[^a-z])cash[^a-z]*[\$]?\s*([\d,]+)
     cats [RE.alt RE.bos (RE.cls notLowerAZ), lit "cash", starC notLowerAZ, amtTail]]),
   ("accounts_receivable",
    [cats [RE.alt (lit "accounts") (lit "trade"), wsStar, lit "receivable",
           dotStarL, amtTail]]),
   ("inventory",
    [ -- inventor(?:y|ies).*?[\$]?\s*([\d,]+)
     cats [lit "inventor", RE.alt (chrR 'y') (lit "ies"), dotStarL, amtTail]]),
   ("retained_earnings",
    [cats [lit "retained", wsStar, lit "earnings", dotStarL, amtTail]]),
   ("section_179",
    [cats [lit "section", wsStar, lit "179", dotStarL, amtTail],
     cats [lit "179", wsStar, RE.alt (lit "deduction") (lit "expense"), dotStarL, amtTail],
     -- line\s*(?:11|12a?).*?179.*?[\$]?\s*([\d,]+)
     cats [lit "line", wsStar, RE.alt (lit "11") (cats [lit "12", optC 'a']),
           dotStarL, lit "179", dotStarL, amtTail]]),
   ("capital_gains_short",
    [ -- short[-\s]*term\s*capital\s*gain.*?[\$]?\s*([\d,]+)
     cats [lit "short", starC dashWs, lit "term", wsStar, lit "capital", wsStar,
           lit "gain", dotStarL, amtTail],
     -- line\s*7[^0-9].*?capital.*?[\$]?\s*([\d,]+)
     cats [lit "line", wsStar, chrR '7', RE.cls notDigit, dotStarL, lit "capital",
           dotStarL, amtTail]]),
   ("capital_gains_long",
    [cats [lit "long", starC dashWs, lit "term", wsStar, lit "capital", wsStar,
           lit "gain", dotStarL, amtTail],
     -- line\s*8a?[^0-9].*?capital.*?[\$]?\s*([\d,]+)
     cats [lit "line", wsStar, chrR '8', optC 'a', RE.cls notDigit, dotStarL,
           lit "capital", dotStarL, amtTail]]),
   ("distributions",
    [ -- distributions?.*?[\$]?\s*([\d,]+)
     cats [lit "distribution", optC 's', dotStarL, amtTail],
     -- line\s*16a?[^0-9].*?cash.*?[\$]?\s*([\d,]+)
     cats [lit "line", wsStar, lit "16", optC 'a', RE.cls notDigit, dotStarL,
           lit "cash", dotStarL, amtTail]]),
   ("distributions_property",
    [ -- line\s*16b[^0-9].*?property.*?[\$]?\s*([\d,]+)
     cats [lit "line", wsStar, lit "16b", RE.cls notDigit, dotStarL, lit "property",
           dotStarL, amtTail],
     cats [lit "property", wsStar, lit "distribution", optC 's', dotStarL, amtTail]]),
   ("guaranteed_payments",
    [cats [lit "guaranteed", wsStar, lit "payments", dotStarL, amtTail]]),
   ("loans_to_shareholders",
    [ -- loans?\s*to\s*(?:shareholders?|members?).*?[\$]?\s*([\d,]+)
     cats [lit "loan", optC 's', wsStar, lit "to", wsStar,
           RE.alt (cats [lit "shareholder", optC 's']) (cats [lit "member", optC 's']),
           dotStarL, amtTail]]),
   ("boy_total_assets",
    [ -- (?:beginning|boy)\s*.*?total\s*assets.*?[\$]?\s*([\d,]+)
     cats [RE.alt (lit "beginning") (lit "boy"), wsStar, dotStarL, lit "total",
           wsStar, lit "assets", dotStarL, amtTail]]),
   ("boy_total_liabilities",
    [cats [RE.alt (lit "beginning") (lit "boy"), wsStar, dotStarL, lit "total",
           wsStar, lit "liabilities", dotStarL, amtTail]]),
   ("eoy_total_assets",
    [cats [RE.alt (lit "end") (lit "eoy"), wsStar, dotStarL, lit "total", wsStar,
           lit "assets", dotStarL, amtTail]]),
   ("eoy_total_liabilities",
    [cats [RE.alt (lit "end") (lit "eoy"), wsStar, dotStarL, lit "total", wsStar,
           lit "liabilities", dotStarL, amtTail]]),
   ("ppp_forgiveness",
    [cats [lit "ppp", dotStarL, lit "forgiveness", dotStarL, amtTail],
     cats [lit "paycheck", wsStar, lit "protection", dotStarL, lit "forgiveness",
           dotStarL, amtTail]]),
   ("eidl_advance",
    [ -- eidl.*?(?:advance|grant).*?[\$]?\s*([\d,]+)
     cats [lit "eidl", dotStarL, RE.alt (lit "advance") (lit "grant"), dotStarL, amtTail],
     cats [lit "economic", wsStar, lit "injury", dotStarL,
           RE.alt (lit "advance") (lit "grant"), dotStarL, amtTail]]),
   ("erc_credit",
    [cats [lit "employee", wsStar, lit "retention", wsStar, lit "credit", dotStarL, amtTail],
     cats [lit "erc", dotStarL, amtTail]])]

/-- The numeric conversion of `extract_amounts_from_text`:
`int(float(match.group(1).replace(',', '').replace('$', '').strip()))`.
The surrounding `except (ValueError, IndexError)` catches `none` and
nan; `OverflowError` from an infinite float is NOT caught and
propagates. -/
def textParseInt (g : String) : Except PyErr (Option Int) :=
  let vs := pyStrip (pyReplace (pyReplace g "," "") "$" "")
  match pyFloatStr vs with
  | none => .ok none
  | some f =>
    match pfToInt f with
    | .ok v => .ok (some v)
    | .error .valueError => .ok none
    | .error e => .error e

/-- One field of `extract_amounts_from_text`: try the patterns in order;
store the first parsed value that is `> 0` and stop; on a parse failure
or a non-positive value continue with the next pattern. -/
def textFieldGo (lt : String) (field : String) (am : PyDict Int) :
    List RE → Except PyErr (PyDict Int)
  | [] => .ok am
  | p :: rest =>
    match reSearch1 p lt with
    | none => textFieldGo lt field am rest
    | some g =>
      match textParseInt g with
      | .error e => .error e
      | .ok none => textFieldGo lt field am rest
      | .ok (some v) =>
        if v > 0 then .ok (pyUpd am field v) else textFieldGo lt field am rest

/-- The field loop of `extract_amounts_from_text`. -/
def textFieldsGo (lt : String) (am : PyDict Int) :
    List (String × List RE) → Except PyErr (PyDict Int)
  | [] => .ok am
  | (field, pats) :: rest =>
    match textFieldGo lt field am pats with
    | .error e => .error e
    | .ok am2 => textFieldsGo lt am2 rest

/-- `extract_amounts_from_text(text)`. -/
def extract_amounts_from_text (text : String) : Except PyErr (PyDict Int) :=
  textFieldsGo (pyLower text) [] textFieldPatterns

/-- `field_mappings` of `extract_amounts_from_table`, in insertion
order: label substring → canonical field. -/
def tableFieldMappings : List (String × String) :=
  [("gross receipts", "gross_receipts"),
   ("total sales", "gross_receipts"),
   ("total revenue", "gross_receipts"),
   ("cost of goods", "cogs"),
   ("gross profit", "gross_profit"),
   ("officer comp", "officer_compensation"),
   ("compensation of officer", "officer_compensation"),
   ("salaries", "salaries_wages"),
   ("wages", "salaries_wages"),
   ("rent", "rents"),
   ("interest", "interest_expense"),
   ("depreciation", "depreciation"),
   ("total deduction", "total_deductions"),
   ("net income", "net_income"),
   ("ordinary income", "net_income"),
   ("taxable income", "taxable_income"),
   ("total assets", "total_assets"),
   ("total liabilities", "total_liabilities"),
   ("cash", "cash"),
   ("receivable", "accounts_receivable"),
   ("inventory", "inventory"),
   ("retained earnings", "retained_earnings"),
   ("section 179", "section_179"),
   ("distribution", "distributions"),
   ("guaranteed payment", "guaranteed_payments")]

/-- The label of a row: the first cell that is non-empty and has a
non-empty `strip()`, lower-cased and stripped. -/
def rowLabel : List String → Option String
  | [] => none
  | c :: rest =>
    if c != "" && pyStrip c != "" then some (pyStrip (pyLower c)) else rowLabel rest

/-- The value scan of `extract_amounts_from_table` over the reversed
row: first cell whose cleaned text converts to a non-zero int wins,
stored as an absolute value; `float` failures and nan are caught
(`except ValueError`), infinite values raise an uncaught
`OverflowError`. -/
def tableRowValue : List String → Except PyErr (Option Int)
  | [] => .ok none
  | c :: rest =>
    if c != "" then
      let cs := pyStrip (pyReplace (pyReplace (pyReplace (pyReplace c "," "") "$" "") "(" "-") ")" "")
      match pyFloatStr cs with
      | none => tableRowValue rest
      | some f =>
        match pfToInt f with
        | .ok v => if v != 0 then .ok (some v.natAbs) else tableRowValue rest
        | .error .valueError => tableRowValue rest
        | .error e => .error e
    else tableRowValue rest

/-- The row loop of `extract_amounts_from_table`: rows of fewer than two
cells are skipped; a row whose label contains one of the mapping
substrings (first mapping wins) contributes its first non-zero right-to-
left value. -/
def tableRowsGo (am : PyDict Int) : List (List String) → Except PyErr (PyDict Int)
  | [] => .ok am
  | row :: rest =>
    if row.length < 2 then tableRowsGo am rest
    else
      match rowLabel row with
      | none => tableRowsGo am rest
      | some label =>
        match tableFieldMappings.find? (fun m => subStr m.1 label) with
        | none => tableRowsGo am rest
        | some m =>
          match tableRowValue row.reverse with
          | .error e => .error e
          | .ok none => tableRowsGo am rest
          | .ok (some v) => tableRowsGo (pyUpd am m.2 v) rest

/-- `extract_amounts_from_table(table_data)`. -/
def extract_amounts_from_table (t : PTable) : Except PyErr (PyDict Int) :=
  tableRowsGo [] t.rows

/-- The merge step of `extract_amounts`: a table amount is written only
when it is positive and the current map holds zero (or nothing) for the
field. -/
def mergeTable (am : PyDict Int) : List (String × Int) → PyDict Int
  | [] => am
  | (k, v) :: rest =>
    mergeTable (if v > 0 && dGet am k 0 == 0 then pyUpd am k v else am) rest

/-- The table loop of `extract_amounts`. -/
def mergeTablesGo (am : PyDict Int) : List PTable → Except PyErr (PyDict Int)
  | [] => .ok am
  | t :: rest =>
    match extract_amounts_from_table t with
    | .error e => .error e
    | .ok ta => mergeTablesGo (mergeTable am ta) rest

/-- `extract_amounts(text, tables)`: text results seed the map, table
results are merged through `mergeTable`. -/
def extract_amounts (text : String) (tables : List PTable) :
    Except PyErr (PyDict Int) :=
  match extract_amounts_from_text text with
  | .error e => .error e
  | .ok tm => mergeTablesGo tm tables

/-! ## Company info and record assembly
(src/modal/extract_pdf.py, lines 1190-1392) -/

/-- Character class `[A-Za-z\s&,\.]` (with IGNORECASE in force,
identical either way). -/
def nameC (c : Char) : Bool :=
  c.isAlpha || wsC c || c == '&' || c == ',' || c == '.'

/-- `[A-Z]` under IGNORECASE: any ASCII letter. -/
def alphaC (c : Char) : Bool := c.isAlpha

/-- `[^\n]` class. -/
def notNl (c : Char) : Bool := c != '\n'

/-- `name_patterns` of `extract_company_info` (searched with
IGNORECASE on the original text). -/
def companyNameREs : List RE :=
  [ -- name\s*of\s*(?:corporation|partnership|business|company)[:\s]+([^\n]+)
   cats [litCI "name", wsStar, litCI "of", wsStar,
         alts [litCI "corporation", litCI "partnership", litCI "business", litCI "company"],
         plusC colonWs, RE.grp (plusC notNl)],
   -- business\s*name[:\s]+([^\n]+)
   cats [litCI "business", wsStar, litCI "name", plusC colonWs, RE.grp (plusC notNl)],
   -- (?:employer|ein).*?([A-Z][A-Za-z\s&,\.]+(?:Inc|LLC|Corp|Co|LP|LLP))
   cats [RE.alt (litCI "employer") (litCI "ein"), dotStarL,
         RE.grp (cats [RE.cls alphaC, plusC nameC,
                       alts [litCI "Inc", litCI "LLC", litCI "Corp", litCI "Co",
                             litCI "LP", litCI "LLP"]])]]

/-- `(?:ein|employer\s*identification)[:\s]*(\d\d[-\s]?\d{7})` with
IGNORECASE. -/
def einRE : RE :=
  cats [RE.alt (litCI "ein") (cats [litCI "employer", wsStar, litCI "identification"]),
        starC colonWs,
        RE.grp (cats [rep Char.isDigit 2, optR (RE.cls dashWs), rep Char.isDigit 7])]

/-- `(?:naics|business\s*(?:activity\s*)?code)[:\s]*(\d{6})` with
IGNORECASE. -/
def naicsRE : RE :=
  cats [RE.alt (litCI "naics")
          (cats [litCI "business", wsStar, optR (cats [litCI "activity", wsStar]),
                 litCI "code"]),
        starC colonWs, RE.grp (rep Char.isDigit 6)]

/-- `(?:principal\s*)?business\s*activity[:\s]+([^\n]+)` with
IGNORECASE. -/
def activityRE : RE :=
  cats [optR (cats [litCI "principal", wsStar]), litCI "business", wsStar,
        litCI "activity", plusC colonWs, RE.grp (plusC notNl)]

/-- The business-name loop of `extract_company_info`: the first match
whose stripped capture has length in `(2, 100)` wins; otherwise the next
pattern is tried. -/
def businessNameGo (text : String) : List RE → String
  | [] => "Unknown Business"
  | p :: rest =>
    match reSearch1 p text with
    | none => businessNameGo text rest
    | some g =>
      let n := pyStrip g
      if 2 < n.length && n.length < 100 then n else businessNameGo text rest

/-- `detect_accounting_method(text)`. -/
def detect_accounting_method (text : String) : String :=
  let l := pyLower text
  if subStr "accrual" l then "Accrual"
  else if subStr "cash" l then "Cash"
  else "Accrual"

/-- The `company_info` dict of `extract_company_info`. -/
structure CompanyInfo where
  business_name : String
  ein : Option String
  entity_type : String
  naics_code : Option String
  business_activity : Option String
  fiscal_year_end : String
  accounting_method : String
deriving DecidableEq, Repr

/-- `extract_company_info(text, entity_type)`. -/
def extract_company_info (text : String) (entityType : String) : CompanyInfo :=
  { business_name := businessNameGo text companyNameREs
    ein := reSearch1 einRE text
    entity_type := entityType
    naics_code := reSearch1 naicsRE text
    business_activity := (reSearch1 activityRE text).map pyStrip
    fiscal_year_end := "12/31"
    accounting_method := detect_accounting_method text }

/-- The classification metadata block of the parsed record. -/
structure ClassMeta where
  document_type_internal : String
  jurisdiction : String
  confidence_score : ℚ
  classification_reasons : List String
deriving DecidableEq, Repr

/-- The record returned by `parse_financial_data`.  The nested dicts
are kept as key/value lists in source order.  `tax_year` is typed
nullable as in the output schema; `parse_financial_data` always stores
an integer in it. -/
structure ParsedRecord where
  document_type : String
  entity_type : String
  tax_year : Option Int
  company_info : CompanyInfo
  income_statement : List (String × Int)
  expenses : List (String × Int)
  balance_sheet : List (String × Int)
  schedule_k : List (String × Int)
  owner_info : List (String × Int)
  covid_adjustments : List (String × Int)
  classification : ClassMeta
deriving DecidableEq, Repr

/-- `DOC_TYPE_DISPLAY`. -/
def DOC_TYPE_DISPLAY : List (String × String) :=
  [("form_1120s", "Form 1120-S"), ("form_1120", "Form 1120"),
   ("form_1065", "Form 1065"), ("schedule_c", "Schedule C"),
   ("va_form_500", "Virginia Form 500"), ("balance_sheet", "Balance Sheet"),
   ("income_statement", "Income Statement"), ("other", "Other")]

/-- The string-keyed part of `ENTITY_TYPE_DISPLAY` (its `None` key is
handled in `parse_financial_data` below). -/
def ENTITY_TYPE_DISPLAY : List (String × String) :=
  [("S-Corporation", "S-Corporation"), ("C-Corporation", "C-Corporation"),
   ("Partnership", "Partnership"), ("Sole Proprietorship", "Sole Proprietorship"),
   ("Corporation", "Corporation"), ("Other", "Other")]

/-- `d.get(k, dflt)` for a string display table. -/
def lookupD (l : List (String × String)) (k dflt : String) : String :=
  match l.find? (fun p => p.1 == k) with
  | some p => p.2
  | none => dflt

/-- The `classification.tax_year or extract_tax_year(text)` expression
of `parse_financial_data`, with Python truthiness (a year of 0 would be
falsy and trigger the fallback). -/
def parseTaxYearE (classification : ClassificationResult) (text : String)
    (now : Int) : Except PyErr Int :=
  match classification.tax_year with
  | some y => if y == 0 then extract_tax_year text now else .ok y
  | none => extract_tax_year text now

/-- The record literal built at the end of `parse_financial_data`. -/
def buildRecord (classification : ClassificationResult) (tax_year : Int)
    (amounts : PyDict Int) (text : String) : ParsedRecord :=
  let doc_type := lookupD DOC_TYPE_DISPLAY classification.document_type "Other"
  let entity_type :=
    match classification.entity_type with
    | none => "Other"
    | some e => lookupD ENTITY_TYPE_DISPLAY e "Other"
  let company_info := extract_company_info text entity_type
  { document_type := doc_type
    entity_type := entity_type
    tax_year := some tax_year
    company_info := company_info
    income_statement :=
      [("gross_receipts_sales", dGet amounts "gross_receipts" 0),
       ("returns_allowances", dGet amounts "returns_allowances" 0),
       ("cost_of_goods_sold", dGet amounts "cogs" 0),
       ("gross_profit", dGet amounts "gross_profit" 0),
       ("total_income", dGet amounts "total_income" 0),
       ("total_deductions", dGet amounts "total_deductions" 0),
       ("taxable_income", dGet amounts "taxable_income" 0),
       ("net_income", dGet amounts "net_income" 0)]
    expenses :=
      [("compensation_of_officers", dGet amounts "officer_compensation" 0),
       ("salaries_wages", dGet amounts "salaries_wages" 0),
       ("repairs_maintenance", dGet amounts "repairs" 0),
       ("bad_debts", dGet amounts "bad_debts" 0),
       ("rents", dGet amounts "rents" 0),
       ("taxes_licenses", dGet amounts "taxes_licenses" 0),
       ("interest", dGet amounts "interest_expense" 0),
       ("depreciation", dGet amounts "depreciation" 0),
       ("depletion", dGet amounts "depletion" 0),
       ("advertising", dGet amounts "advertising" 0),
       ("pension_profit_sharing", dGet amounts "pension" 0),
       ("employee_benefits", dGet amounts "employee_benefits" 0),
       ("other_deductions", dGet amounts "other_deductions" 0)]
    balance_sheet :=
      [("total_assets", dGet amounts "total_assets" 0),
       ("cash", dGet amounts "cash" 0),
       ("accounts_receivable", dGet amounts "accounts_receivable" 0),
       ("inventory", dGet amounts "inventory" 0),
       ("fixed_assets", dGet amounts "fixed_assets" 0),
       ("accumulated_depreciation", dGet amounts "accumulated_depreciation" 0),
       ("other_assets", dGet amounts "other_assets" 0),
       ("total_liabilities", dGet amounts "total_liabilities" 0),
       ("accounts_payable", dGet amounts "accounts_payable" 0),
       ("loans_payable", dGet amounts "loans_payable" 0),
       ("other_liabilities", dGet amounts "other_liabilities" 0),
       ("retained_earnings", dGet amounts "retained_earnings" 0),
       ("total_equity", dGet amounts "total_equity" 0),
       ("boy_total_assets", dGet amounts "boy_total_assets" 0),
       ("boy_total_liabilities", dGet amounts "boy_total_liabilities" 0),
       ("boy_cash", dGet amounts "boy_cash" 0),
       ("boy_accounts_receivable", dGet amounts "boy_accounts_receivable" 0),
       ("boy_inventory", dGet amounts "boy_inventory" 0),
       ("eoy_total_assets",
        dGet amounts "eoy_total_assets" (dGet amounts "total_assets" 0)),
       ("eoy_total_liabilities",
        dGet amounts "eoy_total_liabilities" (dGet amounts "total_liabilities" 0)),
       ("eoy_cash", dGet amounts "eoy_cash" (dGet amounts "cash" 0)),
       ("eoy_accounts_receivable",
        dGet amounts "eoy_accounts_receivable"
          (dGet amounts "accounts_receivable" 0)),
       ("eoy_inventory", dGet amounts "eoy_inventory" (dGet amounts "inventory" 0)),
       ("eoy_retained_earnings",
        dGet amounts "eoy_retained_earnings"
          (dGet amounts "retained_earnings" 0))]
    schedule_k :=
      [("section_179_deduction", dGet amounts "section_179" 0),
       ("charitable_contributions", dGet amounts "charitable" 0),
       ("capital_gains",
        dGet amounts "capital_gains_short" 0 + dGet amounts "capital_gains_long" 0),
       ("capital_gains_short", dGet amounts "capital_gains_short" 0),
       ("capital_gains_long", dGet amounts "capital_gains_long" 0),
       ("total_distributions", dGet amounts "distributions" 0),
       ("distributions_cash", dGet amounts "distributions" 0),
       ("distributions_property", dGet amounts "distributions_property" 0)]
    owner_info :=
      [("owner_compensation", dGet amounts "officer_compensation" 0),
       ("guaranteed_payments", dGet amounts "guaranteed_payments" 0),
       ("distributions", dGet amounts "distributions" 0),
       ("loans_to_shareholders", dGet amounts "loans_to_shareholders" 0),
       ("loans_from_shareholders", dGet amounts "loans_from_shareholders" 0)]
    covid_adjustments :=
      [("ppp_loan_forgiveness", dGet amounts "ppp_forgiveness" 0),
       ("eidl_advances", dGet amounts "eidl_advance" 0),
       ("employee_retention_credit", dGet amounts "erc_credit" 0)]
    classification :=
      { document_type_internal := classification.document_type
        jurisdiction := classification.jurisdiction
        confidence_score := classification.confidence_score
        classification_reasons := classification.classification_reasons } }

/-- `parse_financial_data(text, tables, filename)`.  `now` models
`datetime.now().year` (used only by the `extract_tax_year` fallback). -/
def parse_financial_data (now : Int) (text : String) (tables : List PTable)
    (filename : String) : Except PyErr ParsedRecord :=
  match classify text filename tables with
  | .error e => .error e
  | .ok classification =>
    match parseTaxYearE classification text now with
    | .error e => .error e
    | .ok tax_year =>
      match extract_amounts text tables with
      | .error e => .error e
      | .ok amounts => .ok (buildRecord classification tax_year amounts text)

/-! ## BaseExtractor capability set
(src/modal/extract_pdf.py, lines 316-390) -/

/-- `BaseExtractor._parse_amount`: strip `$`/`,`/whitespace, map a
parenthesised value to a negated one, refuse empty and bare `-`, and
convert with `float` (failures, caught by the `try`, yield `None`). -/
def parseAmount (s : String) : Option PyFloat :=
  let cleaned := pyStrip (pyReplace (pyReplace s "$" "") "," "")
  let cleaned :=
    if charIn '(' cleaned && charIn ')' cleaned then
      "-" ++ pyReplace (pyReplace cleaned "(" "") ")" ""
    else cleaned
  if cleaned != "" && cleaned != "-" then pyFloatStr cleaned else none

/-- The inline numeric conversion of `BaseExtractor.extract_amount`:
`match.group(1).replace(',', '').replace('$', '').strip()`, the
parenthesis-negation step, then `float` (failures yield `none` and the
caller continues with the next pattern). -/
def extractAmountParse (g : String) : Option PyFloat :=
  let vs := pyStrip (pyReplace (pyReplace g "," "") "$" "")
  let vs :=
    if charIn '(' vs then "-" ++ pyReplace (pyReplace vs "(" "") ")" "" else vs
  pyFloatStr vs

/-- `BaseExtractor.extract_amount(patterns, default)` over the
lower-cased text. -/
def extract_amount (lowerText : String) (pats : List RE) (dflt : PyFloat) : PyFloat :=
  match pats with
  | [] => dflt
  | p :: rest =>
    match reSearch1 p lowerText with
    | none => extract_amount lowerText rest dflt
    | some g =>
      match extractAmountParse g with
      | some v => v
      | none => extract_amount lowerText rest dflt

/-- The value scan of `BaseExtractor.extract_from_table` with the
default `column_index=-1` (the only value the source ever passes): the
cells after the label, right to left, first parseable one wins. -/
def tableCellScan : List String → Option PyFloat
  | [] => none
  | c :: rest =>
    if c != "" then
      match parseAmount c with
      | some v => some v
      | none => tableCellScan rest
    else tableCellScan rest

/-- The row loop of `BaseExtractor.extract_from_table`: rows of fewer
than two cells are skipped; the first row whose lower-cased first cell
matches `labelPat` and holds a parseable value ends the search. -/
def extractFromTableRows (labelPat : RE) : List (List String) → Option PyFloat
  | [] => none
  | row :: rest =>
    if row.length < 2 then extractFromTableRows labelPat rest
    else
      let label :=
        match row with
        | c :: _ => if c != "" then pyLower c else ""
        | [] => ""
      if reSearchB labelPat label then
        match tableCellScan (row.drop 1).reverse with
        | some v => some v
        | none => extractFromTableRows labelPat rest
      else extractFromTableRows labelPat rest

/-- `BaseExtractor.extract_from_table(label_pattern)` over all tables. -/
def extract_from_table (tables : List PTable) (labelPat : RE) : Option PyFloat :=
  tables.findSome? (fun t => extractFromTableRows labelPat t.rows)

/-! ## BalanceSheetExtractor
(src/modal/extract_pdf.py, lines 397-576) -/

/-- The two `total_patterns` of `_extract_assets_section`
(`total\s*assets[:\s]*\$?([\d,]+\.?\d*)` and
`total\s*assets\s*[\$]?\s*([\d,]+\.?\d*)`). -/
def totalAssetREs : List RE :=
  [cats [lit "total", wsStar, lit "assets", starC colonWs, optC '$',
         RE.grp (cats [plusC amtC, optC '.', starC Char.isDigit])],
   cats [lit "total", wsStar, lit "assets", wsStar, optC '$', wsStar,
         RE.grp (cats [plusC amtC, optC '.', starC Char.isDigit])]]

/-- `asset_patterns` of `_extract_assets_section`, in insertion order,
each label regex hand-translated. -/
def assetFieldPats : List (String × List RE) :=
  [("cash",
    [lit "cash", lit "checking", lit "savings",
     cats [lit "bank", wsStar, lit "accounts"]]),
   ("accounts_receivable",
    [ -- accounts?\s*receivable
     cats [lit "account", optC 's', wsStar, lit "receivable"],
     cats [lit "trade", wsStar, lit "receivable"],
     lit "a/r"]),
   ("inventory", [cats [lit "inventor", RE.alt (chrR 'y') (lit "ies")]]),
   ("prepaid", [lit "prepaid"]),
   ("fixed_assets_gross",
    [cats [lit "fixed", wsStar, lit "assets"],
     -- property.*equipment
     cats [lit "property", dotStar, lit "equipment"],
     lit "furniture", lit "vehicles", lit "equipment", lit "automobiles"]),
   ("accumulated_depreciation",
    [cats [lit "accumulated", wsStar, lit "depreciation"],
     cats [lit "accum", dotStar, lit "depr"],
     cats [lit "less", dotStar, lit "depreciation"]]),
   ("other_assets",
    [cats [lit "other", wsStar, lit "assets"],
     cats [lit "other", wsStar, lit "current", wsStar, lit "assets"]]),
   ("loans_to_shareholders",
    [ -- (?:loan|due)\s*(?:to|from)\s*(?:shareholder|owner|member)
     cats [RE.alt (lit "loan") (lit "due"), wsStar, RE.alt (lit "to") (lit "from"),
           wsStar, alts [lit "shareholder", lit "owner", lit "member"]],
     cats [lit "shareholder", wsStar, lit "loan"]])]

/-- Python `x or 0` for the `self._parse_amount(match.group(1)) or 0`
idiom. -/
def pyOrZero (x : Option PyFloat) : PyFloat :=
  match x with
  | some f => if pfTruthy f then f else .fin 0
  | none => .fin 0

/-- Strategy 1 of `_extract_assets_section`: the first matching
`TOTAL ASSETS` pattern seeds the dict with key `"total"`. -/
def assetsInit (lt : String) : PyDict PyFloat :=
  match totalAssetREs.findSome? (fun p => reSearch1 p lt) with
  | some g => [("total", pyOrZero (parseAmount g))]
  | none => []

/-- Strategy 2 of `_extract_assets_section`: for each field the first
label pattern with a table hit stores its value, accumulated
depreciation being forced negative when it parsed positive.  (The
red-flag side effect on `loans_to_shareholders` does not influence the
returned dict and is not modelled.) -/
def assetsLoop (tables : List PTable) :
    List (String × List RE) → PyDict PyFloat → PyDict PyFloat
  | [], a => a
  | (field, pats) :: rest, a =>
    match pats.findSome? (fun p => extract_from_table tables p) with
    | none => assetsLoop tables rest a
    | some v =>
      let v := if field == "accumulated_depreciation" && pfGt0 v then pfNeg v else v
      assetsLoop tables rest (pyUpd a field v)

/-- The net-fixed-assets step of `_extract_assets_section`: when both
`fixed_assets_gross` and `accumulated_depreciation` are present and
truthy, `net_fixed_assets` is their sum (and `fixed_assets` copies it);
when only the gross value is truthy, `fixed_assets` copies the gross
value. -/
def assetsNetStep (a : PyDict PyFloat) : PyDict PyFloat :=
  match pyGet a "fixed_assets_gross" with
  | none => a
  | some g =>
    match pyGet a "accumulated_depreciation" with
    | some d =>
      if pfTruthy g && pfTruthy d then
        pyUpd (pyUpd a "net_fixed_assets" (pfAdd g d)) "fixed_assets" (pfAdd g d)
      else if pfTruthy g then pyUpd a "fixed_assets" g
      else a
    | none => if pfTruthy g then pyUpd a "fixed_assets" g else a

/-- `BalanceSheetExtractor._extract_assets_section`. -/
def extractAssetsSection (text : String) (tables : List PTable) : PyDict PyFloat :=
  assetsNetStep (assetsLoop tables assetFieldPats (assetsInit (pyLower text)))

/-! ### Balance-sheet date (`_extract_balance_date`) and year -/

/-- A `datetime` restricted to the fields the extractor reads. -/
structure PyDate where
  year : Int
  month : Nat
  day : Nat
deriving DecidableEq, Repr

/-- The English month names matched by `strptime`'s `%B`. -/
def monthNames : List (String × Nat) :=
  [("january", 1), ("february", 2), ("march", 3), ("april", 4), ("may", 5),
   ("june", 6), ("july", 7), ("august", 8), ("september", 9), ("october", 10),
   ("november", 11), ("december", 12)]

/-- `%B`: case-insensitive full month name at the head of the input. -/
def parseMonthB (l : List Char) : Option (Nat × List Char) :=
  monthNames.findSome? (fun nm =>
    if (nm.1.data.map Char.toLower).isPrefixOf (l.map Char.toLower) then
      some (nm.2, l.drop nm.1.length)
    else none)

/-- `\s+` in a strptime format: at least one whitespace character,
consumed maximally (nothing following it in the used formats can start
with whitespace). -/
def ws1 (l : List Char) : Option (List Char) :=
  match l with
  | c :: r => if wsC c then some (r.dropWhile wsC) else none
  | [] => none

/-- `%d` day candidates in the order of strptime's generated
alternation `(3[01]|[12]\d|0[1-9]|[1-9])`, each with the rest of the
input. -/
def dayCands (l : List Char) : List (Nat × List Char) :=
  (match l with
   | a :: b :: r =>
     (if a == '3' && (b == '0' || b == '1') then [(30 + (b.toNat - 48), r)] else []) ++
     (if (a == '1' || a == '2') && b.isDigit then
        [((a.toNat - 48) * 10 + (b.toNat - 48), r)] else []) ++
     (if a == '0' && '1' ≤ b && b ≤ '9' then [(b.toNat - 48, r)] else [])
   | _ => []) ++
  (match l with
   | a :: r => if '1' ≤ a && a ≤ '9' then [(a.toNat - 48, r)] else []
   | [] => [])

/-- `%m` month candidates per `(1[0-2]|0[1-9]|[1-9])`. -/
def monCands (l : List Char) : List (Nat × List Char) :=
  (match l with
   | a :: b :: r =>
     (if a == '1' && ('0' ≤ b && b ≤ '2') then [(10 + (b.toNat - 48), r)] else []) ++
     (if a == '0' && '1' ≤ b && b ≤ '9' then [(b.toNat - 48, r)] else [])
   | _ => []) ++
  (match l with
   | a :: r => if '1' ≤ a && a ≤ '9' then [(a.toNat - 48, r)] else []
   | [] => [])

/-- `%Y`: exactly four digits. -/
def year4 (l : List Char) : Option (Int × List Char) :=
  match l with
  | a :: b :: c :: d :: r =>
    if a.isDigit && b.isDigit && c.isDigit && d.isDigit then
      some ((digitsVal [a, b, c, d] : Int), r)
    else none
  | _ => none

/-- Day count of a month (for `datetime`'s validity check). -/
def daysInMonth (y : Int) (m : Nat) : Nat :=
  if m == 2 then
    (if y % 4 == 0 && (y % 100 != 0 || y % 400 == 0) then 29 else 28)
  else if m == 4 || m == 6 || m == 9 || m == 11 then 30
  else 31

/-- `datetime(y, m, d)` construction: year within `datetime`'s range and
a valid calendar day, else `ValueError` (caught by the caller). -/
def mkDate (y : Int) (m d : Nat) : Option PyDate :=
  if 1 ≤ y && y ≤ 9999 && 1 ≤ d && d ≤ daysInMonth y m then some ⟨y, m, d⟩ else none

/-- `strptime(s, "%B %d, %Y")`, whole string consumed. -/
def fmtBCommaY (s : String) : Option PyDate :=
  match parseMonthB s.data with
  | none => none
  | some (m, r1) =>
    match ws1 r1 with
    | none => none
    | some r2 =>
      (dayCands r2).findSome? (fun dc =>
        match dc.2 with
        | ',' :: r4 =>
          match ws1 r4 with
          | none => none
          | some r5 =>
            match year4 r5 with
            | some (y, []) => mkDate y m dc.1
            | _ => none
        | _ => none)

/-- `strptime(s, "%B %d %Y")`, whole string consumed. -/
def fmtBY (s : String) : Option PyDate :=
  match parseMonthB s.data with
  | none => none
  | some (m, r1) =>
    match ws1 r1 with
    | none => none
    | some r2 =>
      (dayCands r2).findSome? (fun dc =>
        match ws1 dc.2 with
        | none => none
        | some r4 =>
          match year4 r4 with
          | some (y, []) => mkDate y m dc.1
          | _ => none)

/-- `strptime(s, "%m/%d/%Y")`, whole string consumed. -/
def fmtMDY (s : String) : Option PyDate :=
  (monCands s.data).findSome? (fun mc =>
    match mc.2 with
    | '/' :: r2 =>
      (dayCands r2).findSome? (fun dc =>
        match dc.2 with
        | '/' :: r4 =>
          match year4 r4 with
          | some (y, []) => mkDate y mc.1 dc.1
          | _ => none
        | _ => none)
    | _ => none)

/-- `strptime(s, "%Y-%m-%d")`, whole string consumed. -/
def fmtYMD (s : String) : Option PyDate :=
  match year4 s.data with
  | some (y, '-' :: r1) =>
    (monCands r1).findSome? (fun mc =>
      match mc.2 with
      | '-' :: r3 =>
        (dayCands r3).findSome? (fun dc =>
          match dc.2 with
          | [] => mkDate y mc.1 dc.1
          | _ => none)
      | _ => none)
  | _ => none

/-- The format loop of `_extract_balance_date`: the four formats tried
in order, `ValueError` falling through to the next. -/
def tryDateFormats (s : String) : Option PyDate :=
  (fmtBCommaY s).orElse (fun _ =>
    (fmtBY s).orElse (fun _ =>
      (fmtMDY s).orElse (fun _ => fmtYMD s)))

/-- The pattern loop of `BalanceSheetExtractor._extract_balance_date`:
the first pattern whose capture parses in some format wins; parse
failures continue with the next pattern. -/
def extractBalanceDateGo (lt : String) : List RE → Option PyDate
  | [] => none
  | p :: rest =>
    match reSearch1 p lt with
    | none => extractBalanceDateGo lt rest
    | some g =>
      match tryDateFormats g with
      | some d => some d
      | none => extractBalanceDateGo lt rest

/-- `BalanceSheetExtractor._extract_balance_date`. -/
def extractBalanceDate (text : String) : Option PyDate :=
  extractBalanceDateGo (pyLower text) balanceDateREs

/-- The `20\d\d` pattern of `_infer_year` (no capture group; the source
reads `match.group()`). -/
def re20dd : RE :=
  cats [chrR '2', chrR '0', RE.cls Char.isDigit, RE.cls Char.isDigit]

/-- `BalanceSheetExtractor._infer_year`: a first `20\d\d` hit in range
wins, otherwise `datetime.now().year` (the `now` parameter).  The
`int()` on the match is uncaught, hence `Except`. -/
def inferYear (text : String) (now : Int) : Except PyErr Int :=
  match reSearch0 re20dd text with
  | some m =>
    match pyIntStr m with
    | none => .error .valueError
    | some y => if 2015 ≤ y && y ≤ 2030 then .ok y else .ok now
  | none => .ok now

/-- The `tax_year` computed by `BalanceSheetExtractor.extract`
(line 409): the balance-date year when a date parses, else
`_infer_year`. -/
def bsTaxYear (text : String) (now : Int) : Except PyErr Int :=
  match extractBalanceDate text with
  | some d => .ok d.year
  | none => inferYear text now

/-! ## VirginiaForm500Extractor apportionment
(src/modal/extract_pdf.py, lines 902-936) -/

/-- `([\d.]+)\s*%` tail of the apportionment patterns. -/
def pctTail : RE :=
  cats [RE.grp (plusC (fun c => c.isDigit || c == '.')), wsStar, chrR '%']

/-- `property\s*factor.*?([\d.]+)\s*%`. -/
def propertyPats : List RE := [cats [lit "property", wsStar, lit "factor", dotStarL, pctTail]]

/-- `payroll\s*factor.*?([\d.]+)\s*%`. -/
def payrollPats : List RE := [cats [lit "payroll", wsStar, lit "factor", dotStarL, pctTail]]

/-- `sales\s*factor.*?([\d.]+)\s*%`. -/
def salesPats : List RE := [cats [lit "sales", wsStar, lit "factor", dotStarL, pctTail]]

/-- The three `multi_factor_patterns`
(`multi[-\s]*factor.*?percentage.*?([\d.]+)\s*%`,
`apportionment.*?percentage.*?([\d.]+)\s*%`,
`virginia.*?percentage.*?([\d.]+)\s*%`). -/
def multiFactorPats : List RE :=
  [cats [lit "multi", starC dashWs, lit "factor", dotStarL, lit "percentage",
         dotStarL, pctTail],
   cats [lit "apportionment", dotStarL, lit "percentage", dotStarL, pctTail],
   cats [lit "virginia", dotStarL, lit "percentage", dotStarL, pctTail]]

/-- `VirginiaForm500Extractor._extract_apportionment`: the three factors
default to 0, the multi-factor percentage defaults to 100 and is reset
to 100 when it extracted as exactly 0. -/
def extractApportionment (text : String) : PyDict PyFloat :=
  let lt := pyLower text
  let d := pyUpd [] "property_factor" (extract_amount lt propertyPats (.fin 0))
  let d := pyUpd d "payroll_factor" (extract_amount lt payrollPats (.fin 0))
  let d := pyUpd d "sales_factor" (extract_amount lt salesPats (.fin 0))
  let mf := extract_amount lt multiFactorPats (.fin 100)
  let mf := if pfIsZero mf then .fin 100 else mf
  pyUpd d "multi_factor_percentage" mf

/-! ## Table construction

Two distinct builders exist in the repository:
`extract_pdf` in src/modal/extract_pdf.py (lines 1111-1139) and
`extract_tables_from_page` in src/lib/extraction/modal/extract_pdf.py
(lines 43-97).  Raw pdfplumber cells are `str | None`, modelled as
`Option String`. -/

/-- `str(cell) if cell else ""` for a raw cell. -/
def cellRaw (c : Option String) : String :=
  match c with
  | some s => if s == "" then "" else s
  | none => ""

/-- Python truthiness of a raw cell. -/
def cellTruthy (c : Option String) : Bool :=
  match c with
  | some s => s != ""
  | none => false

/-- `str(cell).strip() if cell else ""` for a raw cell. -/
def cellStrip (c : Option String) : String :=
  match c with
  | some s => if s == "" then "" else pyStrip s
  | none => ""

/-- A built table as appended by either builder. -/
structure BuiltTable where
  headers : Option (List String)
  rows : List (List String)
  row_count : Nat
  column_count : Nat
deriving DecidableEq, Repr

/-- The header test of `extract_pdf` in src/modal/extract_pdf.py:
`first_row and all(cell and not any(c.isdigit() for c in str(cell)) for
cell in first_row if cell)` — the row is non-empty and every truthy
cell contains no digit character. -/
def modalHeaderCond (first : List (Option String)) : Bool :=
  decide (first ≠ []) &&
    first.all (fun c =>
      match c with
      | some s => s == "" || s.data.all (fun ch => !ch.isDigit)
      | none => true)

/-- The header/rows selection of `extract_pdf`: for tables of more than
one row satisfying `modalHeaderCond`, the first row becomes headers and
the remaining raw rows are used; otherwise all rows are used. -/
def modalHeaderRows (table : List (List (Option String)))
    (first : List (Option String)) :
    Option (List String) × List (List (Option String)) :=
  if table.length > 1 then
    if modalHeaderCond first then (some (first.map cellRaw), table.drop 1)
    else (none, table)
  else (none, table)

/-- The per-table construction of `extract_pdf` in
src/modal/extract_pdf.py: empty tables are skipped; all used raw rows
(including fully empty ones) are kept. -/
def modalBuildTable (table : List (List (Option String))) : Option BuiltTable :=
  match table with
  | [] => none
  | first :: rest =>
    let hr := modalHeaderRows (first :: rest) first
    some
      { headers := hr.1
        rows := hr.2.map (fun row => row.map cellRaw)
        row_count := hr.2.length
        column_count := first.length }

/-- The numeric-cell test of `extract_tables_from_page`:
`c.replace(",", "").replace(".", "").replace("-", "").replace("$", "")
.replace("(", "").replace(")", "").isdigit()`. -/
def libIsNumericCell (c : String) : Bool :=
  let c := pyReplace (pyReplace (pyReplace (pyReplace c "," "") "." "") "-" "") "$" ""
  pyIsDigit (pyReplace (pyReplace c "(" "") ")" "")

/-- The non-empty stripped cells of a first row
(`non_empty_cells` in `extract_tables_from_page`). -/
def libNE (first : List (Option String)) : List String :=
  (first.map cellStrip).filter (fun c => c != "")

/-- The header/rows selection of `extract_tables_from_page`: the first
row becomes headers when it has a truthy cell, a non-empty stripped
cell, and strictly fewer than half of its non-empty stripped cells are
pure numbers (`numeric_count < len(non_empty_cells) / 2`). -/
def libHeaderRows (table : List (List (Option String)))
    (first : List (Option String)) :
    Option (List String) × List (List (Option String)) :=
  if decide (first ≠ []) && first.any cellTruthy then
    if decide (libNE first ≠ []) &&
        decide (2 * ((libNE first).countP (fun c => libIsNumericCell c)) <
          (libNE first).length) then
      (some (first.map cellStrip), table.drop 1)
    else (none, table)
  else (none, table)

/-- The row cleanup of `extract_tables_from_page`: cells are stripped
and rows with no non-empty cell are dropped. -/
def libCleaned (rows : List (List (Option String))) : List (List String) :=
  (rows.map (fun row => row.map cellStrip)).filter
    (fun r => r.any (fun c => c != ""))

/-- The per-table construction of `extract_tables_from_page` in
src/lib/extraction/modal/extract_pdf.py: tables of fewer than two rows
are skipped, as are tables with no remaining cleaned rows. -/
def libBuildTable (table : List (List (Option String))) : Option BuiltTable :=
  match table with
  | [] => none
  | first :: rest =>
    if (first :: rest).length < 2 then none
    else
      let hr := libHeaderRows (first :: rest) first
      let cleaned := libCleaned hr.2
      if cleaned ≠ [] then
        some
          { headers := hr.1
            rows := cleaned
            row_count := cleaned.length
            column_count := first.length }
      else none

/-! # Theorems -/

/-- Decidable equality for `Except`, so closed pipeline results can be
evaluated by `decide`. -/
instance exceptDecEq {ε α : Type} [DecidableEq ε] [DecidableEq α] :
    DecidableEq (Except ε α) := fun a b =>
  match a, b with
  | .error x, .error y =>
    if h : x = y then .isTrue (by rw [h]) else
      .isFalse (by intro hc; cases hc; exact h rfl)
  | .error _, .ok _ => .isFalse (by intro hc; cases hc)
  | .ok _, .error _ => .isFalse (by intro hc; cases hc)
  | .ok x, .ok y =>
    if h : x = y then .isTrue (by rw [h]) else
      .isFalse (by intro hc; cases hc; exact h rfl)

/-! ## Bridges from the computable rational helpers to the library
operations -/

theorem ratMul_eq (a b : ℚ) : ratMul a b = a * b := by
  rw [ratMul, Rat.mkRat_eq_div]
  have ha : (a.den : ℚ) ≠ 0 := Nat.cast_ne_zero.mpr a.den_nz
  have hb : (b.den : ℚ) ≠ 0 := Nat.cast_ne_zero.mpr b.den_nz
  conv_rhs => rw [← Rat.num_div_den a, ← Rat.num_div_den b]
  push_cast
  field_simp

theorem ratAdd_eq (a b : ℚ) : ratAdd a b = a + b := by
  rw [ratAdd, Rat.mkRat_eq_div]
  have ha : (a.den : ℚ) ≠ 0 := Nat.cast_ne_zero.mpr a.den_nz
  have hb : (b.den : ℚ) ≠ 0 := Nat.cast_ne_zero.mpr b.den_nz
  conv_rhs => rw [← Rat.num_div_den a, ← Rat.num_div_den b]
  push_cast
  field_simp

theorem pyMin_eq (a b : ℚ) : pyMin a b = min a b := by
  rw [pyMin, min_def]

/-! ## Dictionary lemmas -/

theorem pyGet_pyUpd {α : Type} (d : PyDict α) (k k' : String) (v : α) :
    pyGet (pyUpd d k v) k' = if k = k' then some v else pyGet d k' := by
  induction d with
  | nil => simp [pyUpd, pyGet]
  | cons a r ih =>
    obtain ⟨ka, va⟩ := a
    by_cases hka : ka = k
    · subst hka
      simp only [pyUpd, beq_self_eq_true, if_true, pyGet]
      by_cases hk' : ka = k'
      · subst hk'; simp
      · simp [hk', beq_eq_false_iff_ne.mpr hk']
    · simp only [pyUpd, beq_eq_false_iff_ne.mpr hka, Bool.false_eq_true, if_false, pyGet]
      by_cases hk' : ka = k'
      · subst hk'
        have : ¬ k = ka := fun h => hka h.symm
        simp [this]
      · simp [beq_eq_false_iff_ne.mpr hk', ih]

theorem pyGet_pyUpd_self {α : Type} (d : PyDict α) (k : String) (v : α) :
    pyGet (pyUpd d k v) k = some v := by
  simp [pyGet_pyUpd]

theorem pyGet_pyUpd_ne {α : Type} (d : PyDict α) (k k' : String) (v : α)
    (h : k ≠ k') : pyGet (pyUpd d k v) k' = pyGet d k' := by
  simp [pyGet_pyUpd, h]

/-! ## PyFloat lemmas -/

theorem pfGt0_pfNeg (v : PyFloat) (h : pfGt0 v = true) : pfGt0 (pfNeg v) = false := by
  cases v with
  | fin q =>
    simp only [pfGt0, decide_eq_true_eq] at h
    simp [pfNeg, pfGt0]
    linarith
  | inf => rfl
  | ninf => simp [pfGt0] at h
  | nan => simp [pfGt0] at h

/-! ## `extract_amount` with no matching pattern returns the default -/

theorem extract_amount_nomatch (lt : String) (dflt : PyFloat) :
    ∀ pats : List RE, (∀ p ∈ pats, reSearch1 p lt = none) →
    extract_amount lt pats dflt = dflt := by
  intro pats
  induction pats with
  | nil => intro _; rfl
  | cons p rest ih =>
    intro h
    have hp : reSearch1 p lt = none := h p (List.mem_cons_self p rest)
    rw [extract_amount, hp]
    exact ih (fun q hq => h q (List.mem_cons_of_mem p hq))

/-! ## C5 -/

/-- C5: FALSIFIED (code bug).  The claim states that for every input
with schema-conforming tables, `parse_financial_data` returns a result
without raising.  But the numeric conversion of
`extract_amounts_from_table` is `int(float(cell_str))` guarded only by
`except ValueError`: a cell whose text is `"inf"` converts to an
infinite float and `int(...)` then raises an uncaught `OverflowError`,
which escapes `extract_amounts` and `parse_financial_data`.  This
theorem evaluates the embedded pipeline at that failing input: empty
text and filename, and a single table with the row `["cash", "inf"]`
(the label matches the `"cash"` field mapping, the value cell overflows). -/
theorem parse_financial_data_raises_overflow :
    parse_financial_data 2026 "" [⟨[["cash", "inf"]]⟩] "" =
      .error .overflowError := by
  decide

/-! ## C6 -/

/-- C6: for every input text, if none of the three multi-factor /
apportionment / Virginia percentage patterns matches, the
`multi_factor_percentage` entry produced by
`VirginiaForm500Extractor._extract_apportionment` is exactly 100.0, and
for every input whatsoever the stored `multi_factor_percentage` is
never equal to 0. -/
theorem apportionment_default_100_never_zero (text : String) :
    ((∀ p ∈ multiFactorPats, reSearch1 p (pyLower text) = none) →
      pyGet (extractApportionment text) "multi_factor_percentage" =
        some (PyFloat.fin 100)) ∧
    (∀ v, pyGet (extractApportionment text) "multi_factor_percentage" = some v →
      pfIsZero v = false) := by
  constructor
  · intro h
    show pyGet (pyUpd _ "multi_factor_percentage"
      (if pfIsZero (extract_amount (pyLower text) multiFactorPats (PyFloat.fin 100)) = true
       then PyFloat.fin 100
       else extract_amount (pyLower text) multiFactorPats (PyFloat.fin 100)))
      "multi_factor_percentage" = some (PyFloat.fin 100)
    rw [extract_amount_nomatch (pyLower text) (PyFloat.fin 100) multiFactorPats h]
    rw [pyGet_pyUpd_self]
    have : pfIsZero (PyFloat.fin 100) = false := by decide
    rw [this]
    simp
  · intro v hv
    have hv' : some (if pfIsZero (extract_amount (pyLower text) multiFactorPats
        (PyFloat.fin 100)) = true then PyFloat.fin 100
        else extract_amount (pyLower text) multiFactorPats (PyFloat.fin 100)) = some v := by
      rw [← hv]
      show _ = pyGet (pyUpd _ "multi_factor_percentage" _) "multi_factor_percentage"
      rw [pyGet_pyUpd_self]
    have hveq := Option.some.inj hv'
    by_cases hz : pfIsZero (extract_amount (pyLower text) multiFactorPats
        (PyFloat.fin 100)) = true
    · rw [if_pos hz] at hveq
      rw [← hveq]
      decide
    · rw [if_neg hz] at hveq
      rw [← hveq]
      exact Bool.eq_false_iff.mpr hz

/-- C6 witness: the empty text matches no apportionment pattern and the
theorem yields `multi_factor_percentage = 100.0`, which is non-zero. -/
theorem apportionment_default_100_never_zero_witness :
    pyGet (extractApportionment "") "multi_factor_percentage" =
      some (PyFloat.fin 100) ∧
    pfIsZero (PyFloat.fin 100) = false :=
  ⟨(apportionment_default_100_never_zero "").1 (by decide),
   (apportionment_default_100_never_zero "").2 (PyFloat.fin 100)
     ((apportionment_default_100_never_zero "").1 (by decide))⟩

/-! ## Text-strategy positivity and the merge invariant (C1, C9) -/

theorem textFieldGo_pos (lt field : String) :
    ∀ (pats : List RE) (am am2 : PyDict Int),
      textFieldGo lt field am pats = .ok am2 →
      (∀ k v, pyGet am k = some v → 0 < v) →
      ∀ k v, pyGet am2 k = some v → 0 < v := by
  intro pats
  induction pats with
  | nil =>
    intro am am2 h ham
    cases h
    exact ham
  | cons p rest ih =>
    intro am am2 h ham
    rw [textFieldGo] at h
    split at h
    · exact ih am am2 h ham
    · split at h
      · cases h
      · exact ih am am2 h ham
      · split at h
        case isTrue hv =>
          cases h
          intro k w hw
          rw [pyGet_pyUpd] at hw
          by_cases hk : field = k
          · rw [if_pos hk] at hw
            cases hw
            exact hv
          · rw [if_neg hk] at hw
            exact ham k w hw
        case isFalse hv =>
          exact ih am am2 h ham

theorem textFieldsGo_pos (lt : String) :
    ∀ (l : List (String × List RE)) (am am2 : PyDict Int),
      textFieldsGo lt am l = .ok am2 →
      (∀ k v, pyGet am k = some v → 0 < v) →
      ∀ k v, pyGet am2 k = some v → 0 < v := by
  intro l
  induction l with
  | nil =>
    intro am am2 h ham
    cases h
    exact ham
  | cons fp rest ih =>
    intro am am2 h ham
    obtain ⟨field, pats⟩ := fp
    rw [textFieldsGo] at h
    split at h
    · cases h
    case h_2 am1 hf =>
      exact ih am1 am2 h (textFieldGo_pos lt field pats am am1 hf ham)

/-- Every value stored by the text strategy is strictly positive. -/
theorem extract_amounts_from_text_pos (text : String) (tm : PyDict Int)
    (h : extract_amounts_from_text text = .ok tm) :
    ∀ k v, pyGet tm k = some v → 0 < v := by
  refine textFieldsGo_pos (pyLower text) textFieldPatterns [] tm h ?_
  intro k v hv
  cases hv

/-- The three-part merge invariant: text-derived entries survive the
table merge unchanged, entries that changed were absent from the text
map, and all values stay positive. -/
theorem mergeTable_inv (tm : PyDict Int)
    (htm : ∀ k v, pyGet tm k = some v → 0 < v) :
    ∀ (ta : List (String × Int)) (am : PyDict Int),
      (∀ k v, pyGet tm k = some v → pyGet am k = some v) →
      (∀ k, pyGet am k ≠ pyGet tm k → pyGet tm k = none) →
      (∀ k v, pyGet am k = some v → 0 < v) →
      (∀ k v, pyGet tm k = some v → pyGet (mergeTable am ta) k = some v) ∧
      (∀ k, pyGet (mergeTable am ta) k ≠ pyGet tm k → pyGet tm k = none) ∧
      (∀ k v, pyGet (mergeTable am ta) k = some v → 0 < v) := by
  intro ta
  induction ta with
  | nil =>
    intro am hA hB hP
    exact ⟨hA, hB, hP⟩
  | cons kv rest ih =>
    intro am hA hB hP
    obtain ⟨k, v⟩ := kv
    rw [mergeTable]
    by_cases hw : (v > 0 && dGet am k 0 == 0) = true
    · rw [if_pos hw]
      simp only [Bool.and_eq_true, decide_eq_true_eq, beq_iff_eq] at hw
      obtain ⟨hv', hz'⟩ := hw
      have hamk : pyGet am k = none ∨ pyGet am k = some 0 := by
        rw [dGet] at hz'
        cases hak : pyGet am k with
        | none => exact Or.inl rfl
        | some w =>
          rw [hak] at hz'
          have hw0 : w = 0 := hz'
          rw [hw0]
          exact Or.inr rfl
      have htmk : pyGet tm k = none := by
        cases htk : pyGet tm k with
        | none => rfl
        | some w =>
          have := hA k w htk
          rcases hamk with h1 | h1
          · rw [this] at h1; cases h1
          · rw [this] at h1
            have : w = 0 := by cases h1; rfl
            have := htm k w htk
            omega
      refine ih (pyUpd am k v) ?_ ?_ ?_
      · intro k' w hk'
        rw [pyGet_pyUpd]
        by_cases hkk : k = k'
        · rw [hkk] at htmk; rw [htmk] at hk'; cases hk'
        · rw [if_neg hkk]; exact hA k' w hk'
      · intro k' hk'
        rw [pyGet_pyUpd] at hk'
        by_cases hkk : k = k'
        · rw [← hkk]; exact htmk
        · rw [if_neg hkk] at hk'; exact hB k' hk'
      · intro k' w hk'
        rw [pyGet_pyUpd] at hk'
        by_cases hkk : k = k'
        · rw [if_pos hkk] at hk'; cases hk'; exact hv'
        · rw [if_neg hkk] at hk'; exact hP k' w hk'
    · rw [if_neg hw]
      exact ih am hA hB hP

theorem mergeTablesGo_inv (tm : PyDict Int)
    (htm : ∀ k v, pyGet tm k = some v → 0 < v) :
    ∀ (tables : List PTable) (am m : PyDict Int),
      mergeTablesGo am tables = .ok m →
      (∀ k v, pyGet tm k = some v → pyGet am k = some v) →
      (∀ k, pyGet am k ≠ pyGet tm k → pyGet tm k = none) →
      (∀ k v, pyGet am k = some v → 0 < v) →
      (∀ k v, pyGet tm k = some v → pyGet m k = some v) ∧
      (∀ k, pyGet m k ≠ pyGet tm k → pyGet tm k = none) ∧
      (∀ k v, pyGet m k = some v → 0 < v) := by
  intro tables
  induction tables with
  | nil =>
    intro am m h hA hB hP
    cases h
    exact ⟨hA, hB, hP⟩
  | cons t rest ih =>
    intro am m h hA hB hP
    rw [mergeTablesGo] at h
    split at h
    · cases h
    case h_2 ta ht =>
      obtain ⟨hA', hB', hP'⟩ := mergeTable_inv tm htm ta am hA hB hP
      exact ih (mergeTable am ta) m h hA' hB' hP'

/-- C1: merge precedence of the two strategies.  Whenever
`extract_amounts` succeeds, every field/value pair produced by the
text-pattern strategy appears unchanged in the merged map (so a
table-derived value — in particular a different one — never overrides a
positive text value), and any field whose merged value differs from its
text value was absent from the text-seeded map (text values are never
zero, so "absent or zero" collapses to "absent"). -/
theorem extract_amounts_text_precedence (text : String) (tables : List PTable)
    (tm m : PyDict Int)
    (htext : extract_amounts_from_text text = .ok tm)
    (hm : extract_amounts text tables = .ok m) :
    (∀ f v, pyGet tm f = some v → pyGet m f = some v) ∧
    (∀ f, pyGet m f ≠ pyGet tm f → pyGet tm f = none) := by
  rw [extract_amounts, htext] at hm
  have htm := extract_amounts_from_text_pos text tm htext
  obtain ⟨hA, hB, _⟩ :=
    mergeTablesGo_inv tm htm tables tm m hm (fun _ _ h => h)
      (fun k h => absurd rfl h) htm
  exact ⟨hA, hB⟩

/-- C1 witness: the text yields `gross_receipts = 100`, the table holds
a different value 200 for the same field, and the merged map keeps the
text value. -/
theorem extract_amounts_text_precedence_witness :
    extract_amounts_from_table ⟨[["gross receipts", "200"]]⟩ =
      .ok [("gross_receipts", 200)] ∧
    pyGet [("gross_receipts", (100 : Int))] "gross_receipts" = some 100 ∧
    pyGet [("gross_receipts", (100 : Int))] "gross_receipts" ≠ some 200 := by
  refine ⟨by decide, ?_, by decide⟩
  exact
    (extract_amounts_text_precedence "gross receipts 100"
        [⟨[["gross receipts", "200"]]⟩]
        [("gross_receipts", 100)] [("gross_receipts", 100)]
        (by decide) (by decide)).1
      "gross_receipts" 100 (by decide)

/-- C9: every value in the merged amount map returned by
`extract_amounts` is strictly positive — the text strategy stores only
values `> 0` and the merge step writes a table value only when it is
`> 0`. -/
theorem extract_amounts_values_positive (text : String) (tables : List PTable)
    (m : PyDict Int) (hm : extract_amounts text tables = .ok m) :
    ∀ f v, pyGet m f = some v → 0 < v := by
  rw [extract_amounts] at hm
  cases htext : extract_amounts_from_text text with
  | error e => rw [htext] at hm; cases hm
  | ok tm =>
    rw [htext] at hm
    have htm := extract_amounts_from_text_pos text tm htext
    obtain ⟨_, _, hP⟩ :=
      mergeTablesGo_inv tm htm tables tm m hm (fun _ _ h => h)
        (fun k h => absurd rfl h) htm
    exact hP

/-- C9 witness: at a concrete input the merged map holds
`gross_receipts = 100`, and the theorem yields its positivity. -/
theorem extract_amounts_values_positive_witness :
    extract_amounts "gross receipts 100" [⟨[["gross receipts", "200"]]⟩] =
      .ok [("gross_receipts", 100)] ∧ (0 : Int) < 100 := by
  refine ⟨by decide, ?_⟩
  exact extract_amounts_values_positive "gross receipts 100"
    [⟨[["gross receipts", "200"]]⟩] [("gross_receipts", 100)] (by decide)
    "gross_receipts" 100 (by decide)

/-! ## Classifier score bounds and year ranges (C3, C4, C10) -/

theorem mkRat_nn (n : Int) (d : Nat) (h : 0 ≤ n) : 0 ≤ mkRat n d := by
  rw [Rat.mkRat_eq_div]
  apply div_nonneg
  · exact_mod_cast h
  · positivity

theorem calcScore_nonneg (sig : Sig) (lt fn : String) (hw : 0 ≤ sig.weight) :
    0 ≤ (calcScore sig lt fn).1 := by
  unfold calcScore
  dsimp only
  rw [ratMul_eq, ratAdd_eq, ratAdd_eq, ratAdd_eq]
  apply mul_nonneg _ hw
  have h4 : (0 : ℚ) ≤ mkRat 4 10 := mkRat_nn 4 10 (by omega)
  have h2 : (0 : ℚ) ≤ mkRat 2 10 := mkRat_nn 2 10 (by omega)
  have h3 : (0 : ℚ) ≤ mkRat 3 10 := mkRat_nn 3 10 (by omega)
  have h1 : (0 : ℚ) ≤ mkRat 1 10 := mkRat_nn 1 10 (by omega)
  refine add_nonneg (add_nonneg (add_nonneg ?_ ?_) ?_) ?_
  · split
    · exact le_refl 0
    · rw [ratMul_eq]
      exact mul_nonneg h4 (mkRat_nn _ _ (by omega))
  · split
    · exact h2
    · exact le_refl 0
  · split
    · exact le_refl 0
    · rw [ratMul_eq]
      exact mul_nonneg h2 (mkRat_nn _ _ (by omega))
  · split
    · exact le_refl 0
    · split
      · exact h3
      · split
        · exact h1
        · exact le_refl 0

theorem pickBest_eq_or_mem (x : Sig × ℚ × List String) :
    ∀ l : List (Sig × ℚ × List String), pickBest x l = x ∨ pickBest x l ∈ l := by
  intro l
  induction l generalizing x with
  | nil => exact Or.inl rfl
  | cons y r ih =>
    rw [pickBest]
    rcases ih (if y.2.1 > x.2.1 then y else x) with h | h
    · rw [h]
      split
      · exact Or.inr (List.mem_cons_self _ _)
      · exact Or.inl rfl
    · exact Or.inr (List.mem_cons_of_mem _ h)

theorem SIGS_weight_nonneg : ∀ sig ∈ SIGS, 0 ≤ sig.weight := by
  intro sig hs
  fin_cases hs <;> first
    | exact le_refl _
    | exact zero_le_one
    | exact mkRat_nn _ _ (by omega)

theorem extractYearGo_range (lt : String) :
    ∀ (pats : List RE) (y : Int),
      extractYearGo lt pats = .ok (some y) → 2015 ≤ y ∧ y ≤ 2030 := by
  intro pats
  induction pats with
  | nil => intro y h; cases h
  | cons p rest ih =>
    intro y h
    rw [extractYearGo] at h
    split at h
    · exact ih y h
    · split at h
      · cases h
      · split at h
        case isTrue hr =>
          simp only [Bool.and_eq_true, decide_eq_true_eq] at hr
          cases h
          exact hr
        case isFalse hr =>
          exact ih y h

theorem extractYear_range (lt : String) (y : Int)
    (h : extractYear lt = .ok (some y)) : 2015 ≤ y ∧ y ≤ 2030 :=
  extractYearGo_range lt yearREs y h

theorem balanceDateYearGo_range (lt : String) :
    ∀ (pats : List RE) (y : Int),
      balanceDateYearGo lt pats = .ok (some y) → 2015 ≤ y ∧ y ≤ 2030 := by
  intro pats
  induction pats with
  | nil => intro y h; exact extractYear_range lt y h
  | cons p rest ih =>
    intro y h
    rw [balanceDateYearGo] at h
    split at h
    · exact ih y h
    · split at h
      · exact ih y h
      · split at h
        · cases h
        · split at h
          case isTrue hr =>
            simp only [Bool.and_eq_true, decide_eq_true_eq] at hr
            cases h
            exact hr
          case isFalse hr =>
            exact ih y h

theorem extractTaxYearGo_range_or_default (lt : String) (now : Int) :
    ∀ (pats : List RE) (y : Int),
      extractTaxYearGo lt now pats = .ok y →
      (2015 ≤ y ∧ y ≤ 2030) ∨ y = now - 1 := by
  intro pats
  induction pats with
  | nil =>
    intro y h
    cases h
    exact Or.inr rfl
  | cons p rest ih =>
    intro y h
    rw [extractTaxYearGo] at h
    split at h
    · exact ih y h
    · split at h
      · cases h
      · split at h
        case isTrue hr =>
          simp only [Bool.and_eq_true, decide_eq_true_eq] at hr
          cases h
          exact Or.inl hr
        case isFalse hr =>
          exact ih y h

theorem extractTaxYearGo_nomatch (lt : String) (now : Int) :
    ∀ pats : List RE, (∀ p ∈ pats, reSearch1 p lt = none) →
      extractTaxYearGo lt now pats = .ok (now - 1) := by
  intro pats
  induction pats with
  | nil => intro _; rfl
  | cons p rest ih =>
    intro h
    rw [extractTaxYearGo, h p (List.mem_cons_self p rest)]
    exact ih (fun q hq => h q (List.mem_cons_of_mem p hq))

/-- Shared facts about any successful `classify` result: the confidence
score lies in `[0, 1]` and a non-null tax year lies in `[2015, 2030]`. -/
theorem classify_ok_props (text fn : String) (tables : List PTable)
    (r : ClassificationResult) (h : classify text fn tables = .ok r) :
    (0 ≤ r.confidence_score ∧ r.confidence_score ≤ 1) ∧
    (∀ y, r.tax_year = some y → 2015 ≤ y ∧ y ≤ 2030) := by
  simp only [classify] at h
  split at h
  case h_1 heq => simp [SIGS] at heq
  case h_2 x rest heq =>
    have hbest : 0 ≤ (pickBest x rest).2.1 := by
      have hmem : pickBest x rest ∈ x :: rest := by
        rcases pickBest_eq_or_mem x rest with h1 | h1
        · rw [h1]; exact List.mem_cons_self _ _
        · exact List.mem_cons_of_mem _ h1
      rw [← heq] at hmem
      obtain ⟨sig, hsig, hval⟩ := List.mem_map.mp hmem
      rw [← hval]
      exact calcScore_nonneg sig (pyLower text) (pyLower fn)
        (SIGS_weight_nonneg sig hsig)
    have h310 : (mkRat 3 10 : ℚ) ≤ 1 := by
      rw [Rat.mkRat_eq_div]
      norm_num
    split at h
    case isTrue hlt =>
      split at h
      · cases h
      case h_2 y hy =>
        cases h
        constructor
        · exact ⟨hbest, le_trans (le_of_lt hlt) h310⟩
        · intro yy hyy
          have hyy' : y = some yy := hyy
          rw [hyy'] at hy
          exact extractYear_range (pyLower text) yy hy
    case isFalse hge =>
      split at h
      · cases h
      case h_2 y hy =>
        cases h
        constructor
        · show 0 ≤ pyMin (pickBest x rest).2.1 1 ∧ pyMin (pickBest x rest).2.1 1 ≤ 1
          rw [pyMin_eq]
          constructor
          · exact le_min hbest zero_le_one
          · exact min_le_right _ _
        · intro yy hyy
          have hyy' : y = some yy := hyy
          rw [hyy'] at hy
          split at hy
          · exact balanceDateYearGo_range (pyLower text) balanceDateREs yy hy
          · exact extractYear_range (pyLower text) yy hy

/-- C3: the confidence score in every classification result returned by
`DocumentClassifier.classify` lies in the closed interval `[0, 1]` —
the below-threshold "other" branch reports the raw best score, which is
non-negative and below 0.3; the normal branch clamps with
`min(score, 1.0)`. -/
theorem classify_confidence_in_unit_interval (text fn : String)
    (tables : List PTable) (c : ℚ)
    (h : (classify text fn tables).map (fun r => r.confidence_score) = .ok c) :
    0 ≤ c ∧ c ≤ 1 := by
  cases hc : classify text fn tables with
  | error e =>
    rw [hc] at h
    simp only [Except.map] at h
    cases h
  | ok r =>
    rw [hc] at h
    simp only [Except.map, Except.ok.injEq] at h
    rw [← h]
    exact (classify_ok_props text fn tables r hc).1

set_option maxHeartbeats 2000000 in
set_option maxRecDepth 8000 in
/-- C3 witness: the empty input classifies with confidence 0, which the
theorem places in `[0, 1]`. -/
theorem classify_confidence_in_unit_interval_witness :
    (classify "" "" []).map (fun r => r.confidence_score) = .ok 0 ∧
    (0 : ℚ) ≤ 0 ∧ (0 : ℚ) ≤ 1 :=
  ⟨by decide,
   classify_confidence_in_unit_interval "" "" [] 0 (by decide)⟩

set_option maxHeartbeats 2000000 in
/-- Structure of the tax year stored by `parse_financial_data`: it is
always `some t`, where `t` is the truthy classification year or the
`extract_tax_year` fallback. -/
theorem parse_tax_year_spec (now : Int) (text : String) (tables : List PTable)
    (fn : String) (rec : ParsedRecord)
    (h : parse_financial_data now text tables fn = .ok rec) :
    ∃ cls, classify text fn tables = .ok cls ∧
      ∃ t, rec.tax_year = some t ∧
        ((cls.tax_year = some t ∧ t ≠ 0) ∨ extract_tax_year text now = .ok t) := by
  delta parse_financial_data at h
  split at h
  · cases h
  case h_2 cls hcls =>
    refine ⟨cls, hcls, ?_⟩
    split at h
    · cases h
    case h_2 t hty =>
      split at h
      · cases h
      case h_2 amounts ham =>
        cases h
        refine ⟨t, rfl, ?_⟩
        delta parseTaxYearE at hty
        split at hty
        case h_1 y hcy =>
          split at hty
          · exact Or.inr hty
          case isFalse hz =>
            cases hty
            refine Or.inl ⟨hcy, ?_⟩
            intro h0
            rw [h0] at hz
            exact hz (by decide)
        case h_2 hcy =>
          exact Or.inr hty

/-- C4, amended: every non-null tax year produced by
`DocumentClassifier.classify`, and the (always non-null) tax year of
the `parse_financial_data` record when the current year lies in
`[2016, 2031]`, lie in `[2015, 2030]`.  (The `BalanceSheetExtractor`
tax year can fall outside the range; see the counterexample.) -/
theorem tax_year_ranges :
    (∀ text fn tables y,
      (classify text fn tables).map (fun r => r.tax_year) = .ok (some y) →
      2015 ≤ y ∧ y ≤ 2030) ∧
    (∀ (now : Int) text tables fn y, 2016 ≤ now → now ≤ 2031 →
      (parse_financial_data now text tables fn).map (fun r => r.tax_year) =
        .ok (some y) →
      2015 ≤ y ∧ y ≤ 2030) := by
  constructor
  · intro text fn tables y h
    cases hc : classify text fn tables with
    | error e =>
      rw [hc] at h
      simp only [Except.map] at h
      cases h
    | ok r =>
      rw [hc] at h
      simp only [Except.map, Except.ok.injEq] at h
      exact (classify_ok_props text fn tables r hc).2 y h
  · intro now text tables fn y h16 h31 h
    cases hp : parse_financial_data now text tables fn with
    | error e =>
      rw [hp] at h
      simp only [Except.map] at h
      cases h
    | ok rec =>
      rw [hp] at h
      simp only [Except.map, Except.ok.injEq] at h
      obtain ⟨cls, hcls, t, hrect, hdisj⟩ := parse_tax_year_spec now text tables fn rec hp
      rw [h] at hrect
      have hty : t = y := Option.some.inj hrect.symm
      rw [hty] at hdisj
      rcases hdisj with ⟨hcy, _⟩ | hext
      · exact (classify_ok_props text fn tables cls hcls).2 y hcy
      · rcases extractTaxYearGo_range_or_default (pyLower text) now yearREs y hext
          with hr | hd
        · exact hr
        · omega

/-- C4 counterexample: the claim as stated also covers the tax year
produced by `BalanceSheetExtractor`, but on the balance-sheet input
"as of january 1, 1999" the extractor adopts the parsed balance-date
year 1999, which is outside `[2015, 2030]`. -/
theorem balance_sheet_tax_year_out_of_range :
    bsTaxYear "as of january 1, 1999" 2026 = .ok 1999 ∧
    ¬ (2015 ≤ (1999 : Int) ∧ (1999 : Int) ≤ 2030) := by
  constructor
  · decide
  · decide

set_option maxHeartbeats 4000000 in
set_option maxRecDepth 8000 in
/-- C4 witness: at "tax year 2020" the classifier yields year 2020 and
the record (with current year 2026) stores 2020; both lie in the
range. -/
theorem tax_year_ranges_witness :
    ((2015 ≤ (2020 : Int) ∧ (2020 : Int) ≤ 2030) ∧
     (2015 ≤ (2020 : Int) ∧ (2020 : Int) ≤ 2030)) :=
  ⟨tax_year_ranges.1 "tax year 2020" "" [] 2020 (by decide),
   tax_year_ranges.2 2026 "tax year 2020" [] "" 2020 (by decide) (by decide)
     (by decide)⟩

/-- C10: the top-level `tax_year` of the `parse_financial_data` record
is never null; when classification yields no year, it equals the value
of `extract_tax_year`, and `extract_tax_year` returns the previous
calendar year `now - 1` whenever none of its five patterns matches. -/
theorem record_tax_year_never_null (now : Int) (text : String)
    (tables : List PTable) (fn : String) (yv : Option Int)
    (h : (parse_financial_data now text tables fn).map (fun r => r.tax_year) =
      .ok yv) :
    yv.isSome = true ∧
    (∀ cls, classify text fn tables = .ok cls → cls.tax_year = none →
      ∀ t, extract_tax_year text now = .ok t → yv = some t) ∧
    ((∀ p ∈ yearREs, reSearch1 p (pyLower text) = none) →
      extract_tax_year text now = .ok (now - 1)) := by
  refine ⟨?_, ?_, ?_⟩
  · cases hp : parse_financial_data now text tables fn with
    | error e =>
      rw [hp] at h
      simp only [Except.map] at h
      cases h
    | ok rec =>
      rw [hp] at h
      simp only [Except.map, Except.ok.injEq] at h
      obtain ⟨_, _, t, hrect, _⟩ := parse_tax_year_spec now text tables fn rec hp
      rw [← h, hrect]
      rfl
  · intro cls hcls hnone t ht
    cases hp : parse_financial_data now text tables fn with
    | error e =>
      rw [hp] at h
      simp only [Except.map] at h
      cases h
    | ok rec =>
      rw [hp] at h
      simp only [Except.map, Except.ok.injEq] at h
      obtain ⟨cls', hcls', t', hrect, hdisj⟩ := parse_tax_year_spec now text tables fn rec hp
      have hcc : cls' = cls := by
        rw [hcls] at hcls'
        exact (Except.ok.inj hcls').symm
      rw [hcc] at hdisj
      rcases hdisj with ⟨hcy, _⟩ | hext
      · rw [hnone] at hcy; cases hcy
      · rw [ht] at hext
        have htt : t' = t := (Except.ok.inj hext).symm
        rw [← h, hrect, htt]
  · intro hno
    exact extractTaxYearGo_nomatch (pyLower text) now yearREs hno

set_option maxHeartbeats 4000000 in
set_option maxRecDepth 8000 in
/-- C10 witness: on the empty input classification yields no year and
the record's tax year is `some 2025 = some (2026 - 1)`, the previous
calendar year. -/
theorem record_tax_year_never_null_witness :
    (some (2025 : Int)).isSome = true ∧
    (some (2025 : Int)) = some (2025 : Int) ∧
    extract_tax_year "" 2026 = .ok (2026 - 1) := by
  have hmain := record_tax_year_never_null 2026 "" [] "" (some 2025) (by decide)
  refine ⟨hmain.1, ?_, hmain.2.2 (by decide)⟩
  exact hmain.2.1 ⟨"other", some "Other", none, "Unknown", 0,
    ["No strong document type match found"]⟩ (by decide) rfl 2025 (by decide)

/-! ## Balance-sheet assets section (C2) -/

theorem assetsInit_accdep (lt : String) :
    pyGet (assetsInit lt) "accumulated_depreciation" = none := by
  rw [assetsInit]
  have hne : ("total" == "accumulated_depreciation") = false := by decide
  split
  · simp [pyGet, hne]
  · rfl

theorem assetsLoop_accdep (tbs : List PTable) :
    ∀ (l : List (String × List RE)) (a : PyDict PyFloat),
      (∀ v, pyGet a "accumulated_depreciation" = some v → pfGt0 v = false) →
      ∀ v, pyGet (assetsLoop tbs l a) "accumulated_depreciation" = some v →
        pfGt0 v = false := by
  intro l
  induction l with
  | nil =>
    intro a ha v hv
    exact ha v hv
  | cons fp rest ih =>
    intro a ha v hv
    obtain ⟨field, pats⟩ := fp
    rw [assetsLoop] at hv
    split at hv
    · exact ih a ha v hv
    case h_2 w hw =>
      refine ih _ ?_ v hv
      intro u hu
      rw [pyGet_pyUpd] at hu
      by_cases hf : field = "accumulated_depreciation"
      · rw [if_pos hf] at hu
        have hu' := Option.some.inj hu
        rw [← hu']
        rw [hf]
        simp only [beq_self_eq_true, Bool.true_and]
        by_cases hgt : pfGt0 w = true
        · rw [if_pos hgt]
          exact pfGt0_pfNeg w hgt
        · rw [if_neg hgt]
          exact Bool.eq_false_iff.mpr hgt
      · rw [if_neg hf] at hu
        exact ha u hu

/-- C2: whenever `_extract_assets_section` obtains non-zero (truthy)
values for both `fixed_assets_gross` and `accumulated_depreciation`,
the returned map holds
`net_fixed_assets = fixed_assets_gross + accumulated_depreciation`, and
the stored accumulated depreciation is never positive (it is forced
negative when it parsed positive). -/
theorem balance_sheet_net_fixed_assets (text : String) (tables : List PTable)
    (g d : PyFloat)
    (hg : pyGet (extractAssetsSection text tables) "fixed_assets_gross" = some g)
    (hd : pyGet (extractAssetsSection text tables) "accumulated_depreciation" = some d)
    (htg : pfTruthy g = true) (htd : pfTruthy d = true) :
    pyGet (extractAssetsSection text tables) "net_fixed_assets" =
      some (pfAdd g d) ∧ pfGt0 d = false := by
  have hdn : ∀ v,
      pyGet (assetsLoop tables assetFieldPats (assetsInit (pyLower text)))
        "accumulated_depreciation" = some v → pfGt0 v = false := by
    apply assetsLoop_accdep
    intro v hv
    rw [assetsInit_accdep (pyLower text)] at hv
    cases hv
  have hE : extractAssetsSection text tables =
      assetsNetStep (assetsLoop tables assetFieldPats (assetsInit (pyLower text))) :=
    rfl
  set A := assetsLoop tables assetFieldPats (assetsInit (pyLower text)) with hA
  rw [hE] at hg hd ⊢
  cases hag : pyGet A "fixed_assets_gross" with
  | none =>
    simp only [assetsNetStep, hag] at hg
    cases hg
  | some g' =>
    cases had : pyGet A "accumulated_depreciation" with
    | none =>
      simp only [assetsNetStep, hag, had] at hd
      split at hd
      · rw [pyGet_pyUpd_ne _ _ _ _ (by decide), had] at hd
        cases hd
      · rw [had] at hd
        cases hd
    | some d' =>
      have hd'f := hdn d' had
      simp only [assetsNetStep, hag, had] at hg hd ⊢
      by_cases htr : (pfTruthy g' && pfTruthy d') = true
      · rw [if_pos htr] at hg hd ⊢
        rw [pyGet_pyUpd_ne _ _ _ _ (by decide),
            pyGet_pyUpd_ne _ _ _ _ (by decide), hag] at hg
        rw [pyGet_pyUpd_ne _ _ _ _ (by decide),
            pyGet_pyUpd_ne _ _ _ _ (by decide), had] at hd
        cases hg
        cases hd
        constructor
        · rw [pyGet_pyUpd_ne _ _ _ _ (by decide), pyGet_pyUpd_self]
        · exact hd'f
      · rw [if_neg htr] at hg hd
        have hgg : g = g' := by
          split at hg
          · rw [pyGet_pyUpd_ne _ _ _ _ (by decide), hag] at hg
            exact (Option.some.inj hg).symm
          · rw [hag] at hg
            exact (Option.some.inj hg).symm
        have hdd : d = d' := by
          split at hd
          · rw [pyGet_pyUpd_ne _ _ _ _ (by decide), had] at hd
            exact (Option.some.inj hd).symm
          · rw [had] at hd
            exact (Option.some.inj hd).symm
        exfalso
        apply htr
        rw [← hgg, ← hdd, htg, htd]
        rfl

set_option maxHeartbeats 4000000 in
set_option maxRecDepth 8000 in
/-- C2 witness: a balance-sheet table with rows
`["Accumulated Depreciation", "5,000"]` and `["Fixed Assets",
"20,000"]` yields `fixed_assets_gross = 20000`,
`accumulated_depreciation = -5000` (forced negative) and
`net_fixed_assets = 15000`. -/
theorem balance_sheet_net_fixed_assets_witness :
    pyGet (extractAssetsSection ""
        [⟨[["Accumulated Depreciation", "5,000"], ["Fixed Assets", "20,000"]]⟩])
      "fixed_assets_gross" = some (PyFloat.fin 20000) ∧
    pyGet (extractAssetsSection ""
        [⟨[["Accumulated Depreciation", "5,000"], ["Fixed Assets", "20,000"]]⟩])
      "accumulated_depreciation" = some (PyFloat.fin (-5000)) ∧
    pyGet (extractAssetsSection ""
        [⟨[["Accumulated Depreciation", "5,000"], ["Fixed Assets", "20,000"]]⟩])
      "net_fixed_assets" = some (PyFloat.fin 15000) ∧
    pfGt0 (PyFloat.fin (-5000)) = false := by
  have h := balance_sheet_net_fixed_assets ""
    [⟨[["Accumulated Depreciation", "5,000"], ["Fixed Assets", "20,000"]]⟩]
    (PyFloat.fin 20000) (PyFloat.fin (-5000))
    (by decide) (by decide) (by decide) (by decide)
  refine ⟨by decide, by decide, ?_, h.2⟩
  have hsum : pfAdd (PyFloat.fin 20000) (PyFloat.fin (-5000)) =
      PyFloat.fin 15000 := by decide
  rw [← hsum]
  exact h.1

/-! ## Table construction (C7) -/

/-- Every row kept by `libCleaned` has a non-empty cell. -/
theorem libCleaned_mem (rows : List (List (Option String))) (r : List String)
    (hr : r ∈ libCleaned rows) : ∃ c ∈ r, c ≠ "" := by
  unfold libCleaned at hr
  have hr' := List.mem_filter.mp hr
  obtain ⟨c, hcmem, hcne⟩ := List.any_eq_true.mp hr'.2
  exact ⟨c, hcmem, by simpa using hcne⟩

/-- `libHeaderRows` promotes headers exactly when the first row has a
truthy cell, a non-empty stripped cell, and a strict majority of
non-numeric cells among its non-empty stripped cells. -/
theorem libHeaderRows_fst_isSome (table : List (List (Option String)))
    (first : List (Option String)) :
    (libHeaderRows table first).1.isSome = true ↔
      (first.any cellTruthy = true ∧ libNE first ≠ [] ∧
       2 * ((libNE first).countP (fun c => libIsNumericCell c)) <
         (libNE first).length) := by
  by_cases h1 : (decide (first ≠ []) && first.any cellTruthy) = true
  · by_cases h2 : (decide (libNE first ≠ []) &&
        decide (2 * ((libNE first).countP (fun c => libIsNumericCell c)) <
          (libNE first).length)) = true
    · unfold libHeaderRows
      rw [if_pos h1, if_pos h2]
      simp only [Bool.and_eq_true, decide_eq_true_eq] at h1 h2
      exact ⟨fun _ => ⟨h1.2, h2.1, h2.2⟩, fun _ => rfl⟩
    · unfold libHeaderRows
      rw [if_pos h1, if_neg h2]
      constructor
      · intro hf
        exact absurd hf Bool.false_ne_true
      · rintro ⟨ha, hne, hmaj⟩
        exact absurd (by
          simp only [Bool.and_eq_true, decide_eq_true_eq]
          exact ⟨hne, hmaj⟩) h2
  · unfold libHeaderRows
    rw [if_neg h1]
    constructor
    · intro hf
      exact absurd hf Bool.false_ne_true
    · rintro ⟨ha, hne, hmaj⟩
      refine absurd ?_ h1
      simp only [Bool.and_eq_true, decide_eq_true_eq]
      constructor
      · intro hfe
        rw [hfe] at ha
        simp at ha
      · exact ha

/-- The modal header test holds exactly when the first row is non-empty
and every truthy cell of it contains no digit character. -/
theorem modalHeaderCond_iff (first : List (Option String)) :
    modalHeaderCond first = true ↔
      (first ≠ [] ∧ ∀ c ∈ first, cellTruthy c = true →
        (cellRaw c).data.all (fun ch => !ch.isDigit) = true) := by
  constructor
  · intro h
    unfold modalHeaderCond at h
    rw [Bool.and_eq_true, decide_eq_true_eq] at h
    obtain ⟨hne, hall⟩ := h
    refine ⟨hne, ?_⟩
    intro c hc hct
    have hcc := List.all_eq_true.mp hall c hc
    cases c with
    | none => cases hct
    | some s =>
      have hct' : (s != "") = true := hct
      have hs : (s == "") = false := by simpa using hct'
      have hcc' : (s == "" || s.data.all (fun ch => !ch.isDigit)) = true := hcc
      rw [hs, Bool.false_or] at hcc'
      show (cellRaw (some s)).data.all (fun ch => !ch.isDigit) = true
      have hcr : cellRaw (some s) = s := by
        rw [show cellRaw (some s) = if s == "" then "" else s from rfl,
          if_neg (by simp [hs])]
      rw [hcr]
      exact hcc'
  · rintro ⟨hne, hall⟩
    unfold modalHeaderCond
    rw [Bool.and_eq_true, decide_eq_true_eq]
    refine ⟨hne, ?_⟩
    rw [List.all_eq_true]
    intro c hc
    cases c with
    | none => rfl
    | some s =>
      show (s == "" || s.data.all (fun ch => !ch.isDigit)) = true
      by_cases hs : s = ""
      · subst hs
        rw [show ("" == "") = true from rfl, Bool.true_or]
      · have hbe : (s == "") = false := by
          rw [beq_eq_false_iff_ne]
          exact hs
        have hct : cellTruthy (some s) = true := by
          show (s != "") = true
          simpa using hs
        have hres := hall (some s) hc hct
        have hcr : cellRaw (some s) = s := by
          rw [show cellRaw (some s) = if s == "" then "" else s from rfl,
            if_neg (by simp [hbe])]
        rw [hcr] at hres
        rw [hbe, Bool.false_or]
        exact hres

/-- `modalHeaderRows` promotes headers exactly for a multi-row table
satisfying `modalHeaderCond`, and the used rows are the raw rows minus
the promoted header row. -/
theorem modalHeaderRows_spec (table : List (List (Option String)))
    (first : List (Option String)) :
    ((modalHeaderRows table first).1.isSome = true ↔
      (1 < table.length ∧ modalHeaderCond first = true)) ∧
    (modalHeaderRows table first).2.length =
      (if (modalHeaderRows table first).1.isSome then table.length - 1
       else table.length) := by
  by_cases h1 : table.length > 1
  · by_cases h2 : modalHeaderCond first = true
    · have hEq : modalHeaderRows table first =
          (some (first.map cellRaw), table.drop 1) := by
        unfold modalHeaderRows
        rw [if_pos h1, if_pos h2]
      rw [hEq]
      refine ⟨⟨fun _ => ⟨h1, h2⟩, fun _ => rfl⟩, by simp⟩
    · have hEq : modalHeaderRows table first = (none, table) := by
        unfold modalHeaderRows
        rw [if_pos h1, if_neg h2]
      rw [hEq]
      refine ⟨⟨fun hf => absurd hf Bool.false_ne_true,
        fun hp => absurd hp.2 h2⟩, by simp⟩
  · have hEq : modalHeaderRows table first = (none, table) := by
      unfold modalHeaderRows
      rw [if_neg h1]
    rw [hEq]
    refine ⟨⟨fun hf => absurd hf Bool.false_ne_true,
      fun hp => absurd hp.1 h1⟩, by simp⟩

/-- C7 counterexample: the claim requires, for every raw table used by
the pipeline, (a) rows with no non-empty cell to be dropped and (b) the
first row of a multi-row table to be promoted to headers exactly when a
majority of its non-empty cells are non-numeric.  The table builder of
src/modal/extract_pdf.py violates both on this input: the first row
`["Item", "12/31/2023"]` has a strict majority (all) of non-numeric
cells — so the claim demands promotion — yet no headers are produced
(the cell "12/31/2023" contains digit characters), and the fully empty
row `["", ""]` is kept in the used rows. -/
theorem modal_table_construction_counterexample :
    modalBuildTable
        [[some "Item", some "12/31/2023"], [some "", some ""],
         [some "Rent", some "1,000"]] =
      some ⟨none, [["Item", "12/31/2023"], ["", ""], ["Rent", "1,000"]], 3, 2⟩ ∧
    (let ne := ([some "Item", some "12/31/2023"].map cellStrip).filter
        (fun c => c != "")
     2 * ne.countP (fun c => libIsNumericCell c) < ne.length) ∧
    ¬ (∀ r ∈ [["Item", "12/31/2023"], ["", ""], ["Rent", "1,000"]],
        ∃ c ∈ r, c ≠ "") := by
  refine ⟨by decide, by decide, ?_⟩
  intro h
  obtain ⟨c, hc, hne⟩ := h ["", ""] (by decide)
  apply hne
  simp only [List.mem_cons, List.not_mem_nil, or_false] at hc
  rcases hc with h1 | h1 <;> exact h1

/-- C7, amended: the two table builders behave differently.  In the lib
extraction path (`extract_tables_from_page`), every used row keeps at
least one non-empty cell — empty rows are dropped — and the first row
is promoted to headers exactly when it has a truthy cell, has a
non-empty stripped cell, and strictly fewer than half of its non-empty
stripped cells are pure numbers (the majority rule).  In the modal
service path (`extract_pdf`), no row is dropped (the used row count
equals the raw row count minus the promoted header row) and the first
row of a multi-row table is promoted exactly when it is non-empty and
every truthy cell of it contains no digit character. -/
theorem table_construction_rules (table : List (List (Option String)))
    (first : List (Option String)) (rest : List (List (Option String)))
    (htab : table = first :: rest) :
    (∀ t, libBuildTable table = some t →
      (∀ r ∈ t.rows, ∃ c ∈ r, c ≠ "") ∧
      (t.headers.isSome = true ↔
        (first.any cellTruthy = true ∧
         ((first.map cellStrip).filter (fun c => c != "")) ≠ [] ∧
         2 * (((first.map cellStrip).filter (fun c => c != "")).countP
            (fun c => libIsNumericCell c)) <
           ((first.map cellStrip).filter (fun c => c != "")).length))) ∧
    (∀ t, modalBuildTable table = some t →
      (t.headers.isSome = true ↔
        (1 < table.length ∧ first ≠ [] ∧
         ∀ c ∈ first, cellTruthy c = true →
           (cellRaw c).data.all (fun ch => !ch.isDigit) = true)) ∧
      t.row_count =
        (if t.headers.isSome then table.length - 1 else table.length)) := by
  subst htab
  constructor
  · intro t h
    simp only [libBuildTable] at h
    split at h
    · exact Option.noConfusion h
    · split at h
      · obtain rfl := Option.some.inj h
        constructor
        · intro r hr
          have hr' : r ∈ libCleaned (libHeaderRows (first :: rest) first).2 := hr
          exact libCleaned_mem _ r hr'
        · show (libHeaderRows (first :: rest) first).1.isSome = true ↔ _
          exact libHeaderRows_fst_isSome (first :: rest) first
      · exact Option.noConfusion h
  · intro t h
    simp only [modalBuildTable] at h
    obtain rfl := Option.some.inj h
    have hs := modalHeaderRows_spec (first :: rest) first
    constructor
    · show (modalHeaderRows (first :: rest) first).1.isSome = true ↔ _
      rw [hs.1, modalHeaderCond_iff first]
    · show (modalHeaderRows (first :: rest) first).2.length =
        (if (modalHeaderRows (first :: rest) first).1.isSome then
          (first :: rest).length - 1 else (first :: rest).length)
      exact hs.2

set_option maxHeartbeats 2000000 in
set_option maxRecDepth 8000 in
/-- C7 witness: on a concrete two-column table the lib builder drops the
empty row and promotes the majority-non-numeric first row, and the
modal builder keeps all rows without promotion. -/
theorem table_construction_rules_witness :
    (some ["Item", "12/31/2023"] : Option (List String)).isSome = true ∧
    (none : Option (List String)).isSome = false := by
  have h := table_construction_rules
    [[some "Item", some "12/31/2023"], [some "", some ""],
     [some "Rent", some "1,000"]]
    [some "Item", some "12/31/2023"]
    [[some "", some ""], [some "Rent", some "1,000"]] rfl
  have hlib := h.1 ⟨some ["Item", "12/31/2023"], [["Rent", "1,000"]], 1, 2⟩
    (by decide)
  have hmod := h.2 ⟨none, [["Item", "12/31/2023"], ["", ""], ["Rent", "1,000"]], 3, 2⟩
    (by decide)
  refine ⟨hlib.2.mpr ⟨by decide, by decide, by decide⟩, rfl⟩

/-! ## C8 -/

/-- C8: the numeric parsing of the text-pattern strategy
(`extract_amount`'s inline conversion, `extractAmountParse`) and of the
table-label strategy (`BaseExtractor._parse_amount`, `parseAmount`) both
strip currency symbols and thousands separators and treat a
parenthesised value as negative: `"$1,234,567"` parses like
`"1234567"` (to 1234567) and `"(5,000)"` parses to −5000. -/
theorem amount_parsing_currency_parens :
    extractAmountParse "$1,234,567" = extractAmountParse "1234567" ∧
    extractAmountParse "$1,234,567" = some (PyFloat.fin 1234567) ∧
    extractAmountParse "(5,000)" = some (PyFloat.fin (-5000)) ∧
    parseAmount "$1,234,567" = parseAmount "1234567" ∧
    parseAmount "$1,234,567" = some (PyFloat.fin 1234567) ∧
    parseAmount "(5,000)" = some (PyFloat.fin (-5000)) := by
  refine ⟨?_, ?_, ?_, ?_, ?_, ?_⟩ <;> decide

end BV
